import Mathlib

/-!
Shallow embedding of the QueryNode control-plane task subsystem
(`internal/querynode/task.go`) of the milvus repository.

The task layer is embedded as pure functions over an explicit
`QueryNodeState`. Collaborator calls that can fail (message-bus
consume/seek, segment loading, flow-graph creation, query-shard lookup,
partition removal) are driven by an `Env` of oracles, so that every
control path of the Go source is reachable in the model. Each `Execute`
returns the updated state, a trace of observable events (used for the
temporal claims) and an optional error; executions that dereference a
nil pointer in Go are modelled by an outer `Option` returning `none`.

Components that are not part of the provided source (the replica
registry, the flow-graph service, the tSafe replica, the query-shard
service, the segment loader, and the `funcutil` helpers) are modelled
from the specification; each such definition carries a doc comment
starting with `Modelled from the spec:`.
-/

/-- Association-list lookup keyed by decidable equality; models Go map reads. -/
def alookup {κ α : Type} [DecidableEq κ] : List (κ × α) → κ → Option α
  | [], _ => none
  | (k, v) :: rest, k' => if k = k' then some v else alookup rest k'

/-- Association-list insert-or-replace; models Go map writes. -/
def aupsert {κ α : Type} [DecidableEq κ] (l : List (κ × α)) (k : κ) (v : α) : List (κ × α) :=
  if (alookup l k).isSome then
    l.map (fun p => if p.1 = k then (k, v) else p)
  else
    l ++ [(k, v)]

/-- MsgBase of an inbound request: `commonpb.MsgBase` (the fields the task layer reads). -/
structure MsgBase where
  MsgID : Int
  Timestamp : Nat
deriving Repr, DecidableEq

/-- Message position: `internalpb.MsgPosition` (the fields the task layer reads). -/
structure MsgPosition where
  ChannelName : String
  MsgID : List Nat
  MsgGroup : String
  Timestamp : Nat
deriving Repr, DecidableEq

/-- Segment info from the data coordinator: `datapb.SegmentInfo` (the fields the
task layer reads). `DmlPosition` is an optional pointer in the source. -/
structure SegmentInfo where
  ID : Int
  PartitionID : Int
  CollectionID : Int
  Binlogs : List String
  NumOfRows : Int
  Statslogs : List String
  Deltalogs : List String
  DmlPosition : Option MsgPosition
deriving Repr, DecidableEq

/-- Channel info of a watch request: `datapb.VchannelInfo`. `SeekPosition` is an
optional pointer. The source holds `[]*datapb.SegmentInfo`; for the dropped
segments the element pointers themselves are checked against nil by the task
code, so they are kept as `Option`; the unflushed and flushed segment elements
are dereferenced unconditionally and are modelled as plain values. -/
structure VchannelInfo where
  ChannelName : String
  SeekPosition : Option MsgPosition
  UnflushedSegments : List SegmentInfo
  FlushedSegments : List SegmentInfo
  DroppedSegments : List (Option SegmentInfo)
deriving Repr, DecidableEq

/-- Load type of a load request: `querypb.LoadType`. -/
inductive LoadType where
  | UnKnownType
  | LoadPartition
  | LoadCollection
deriving Repr, DecidableEq

/-- Load meta of a load request: `querypb.LoadMetaInfo` (fields the task layer reads). -/
structure LoadMetaInfo where
  LoadType : LoadType
  PartitionIDs : List Int
deriving Repr, DecidableEq

/-- Segment load info: `querypb.SegmentLoadInfo` (the fields built in WatchDmChannels). -/
structure SegmentLoadInfo where
  SegmentID : Int
  PartitionID : Int
  CollectionID : Int
  BinlogPaths : List String
  NumOfRows : Int
  Statslogs : List String
  Deltalogs : List String
deriving Repr, DecidableEq

/-- Request of addQueryChannelTask: `querypb.AddQueryChannelRequest`. -/
structure AddQueryChannelRequest where
  Base : Option MsgBase
  CollectionID : Int
  QueryChannel : String
  SeekPosition : Option MsgPosition
deriving Repr, DecidableEq

/-- Request of watchDmChannelsTask: `querypb.WatchDmChannelsRequest`. -/
structure WatchDmChannelsRequest where
  Base : Option MsgBase
  CollectionID : Int
  PartitionIDs : List Int
  Infos : List VchannelInfo
  Schema : Nat
  LoadMeta : Option LoadMetaInfo
  ReplicaID : Int
deriving Repr, DecidableEq

/-- Request of watchDeltaChannelsTask: `querypb.WatchDeltaChannelsRequest`. -/
structure WatchDeltaChannelsRequest where
  Base : Option MsgBase
  CollectionID : Int
  Infos : List VchannelInfo
  ReplicaId : Int
deriving Repr, DecidableEq

/-- Request of loadSegmentsTask: `querypb.LoadSegmentsRequest`. -/
structure LoadSegmentsRequest where
  Base : Option MsgBase
  Infos : List SegmentLoadInfo
  Schema : Nat
  CollectionID : Int
  LoadMeta : Option LoadMetaInfo
deriving Repr, DecidableEq

/-- Request of releaseCollectionTask: `querypb.ReleaseCollectionRequest`. -/
structure ReleaseCollectionRequest where
  Base : Option MsgBase
  CollectionID : Int
deriving Repr, DecidableEq

/-- Request of releasePartitionsTask: `querypb.ReleasePartitionsRequest`. -/
structure ReleasePartitionsRequest where
  Base : Option MsgBase
  CollectionID : Int
  PartitionIDs : List Int
deriving Repr, DecidableEq

/-- Nil-safe getter `req.GetLoadMeta().GetLoadType()` of the generated proto code. -/
def WatchDmChannelsRequest.GetLoadType (w : WatchDmChannelsRequest) : LoadType :=
  match w.LoadMeta with
  | none => LoadType.UnKnownType
  | some m => m.LoadType

/-- Nil-safe getter `req.GetLoadMeta().GetPartitionIDs()` of the generated proto code. -/
def WatchDmChannelsRequest.GetLoadMetaPartitionIDs (w : WatchDmChannelsRequest) : List Int :=
  match w.LoadMeta with
  | none => []
  | some m => m.PartitionIDs

/-- Nil-safe getter `req.GetLoadMeta().GetPartitionIDs()` of the generated proto code. -/
def LoadSegmentsRequest.GetLoadMetaPartitionIDs (l : LoadSegmentsRequest) : List Int :=
  match l.LoadMeta with
  | none => []
  | some m => m.PartitionIDs

/-- Collection held by a replica. Modelled from the spec: §3 Collection holds
schema, load-type, vChannels, pChannels, vDeltaChannels, pDeltaChannels and a
release-time. -/
structure Collection where
  schema : Nat
  loadType : LoadType
  vChannels : List String
  pChannels : List String
  vDeltaChannels : List String
  pDeltaChannels : List String
  releaseTime : Nat
deriving Repr, DecidableEq

/-- Fresh collection created by `addCollection`. Modelled from the spec. -/
def Collection.new (schema : Nat) : Collection :=
  ⟨schema, LoadType.UnKnownType, [], [], [], [], 0⟩

/-- Modelled from the spec: `addVChannels` extends the channel list without duplicates. -/
def Collection.addVChannels (c : Collection) (chs : List String) : Collection :=
  { c with vChannels := c.vChannels ++ chs.filter (fun ch => !c.vChannels.contains ch) }

/-- Modelled from the spec: `addPChannels` extends the channel list without duplicates. -/
def Collection.addPChannels (c : Collection) (chs : List String) : Collection :=
  { c with pChannels := c.pChannels ++ chs.filter (fun ch => !c.pChannels.contains ch) }

/-- Modelled from the spec: `addVDeltaChannels` extends the channel list without duplicates. -/
def Collection.addVDeltaChannels (c : Collection) (chs : List String) : Collection :=
  { c with vDeltaChannels := c.vDeltaChannels ++ chs.filter (fun ch => !c.vDeltaChannels.contains ch) }

/-- Modelled from the spec: `addPDeltaChannels` extends the channel list without duplicates. -/
def Collection.addPDeltaChannels (c : Collection) (chs : List String) : Collection :=
  { c with pDeltaChannels := c.pDeltaChannels ++ chs.filter (fun ch => !c.pDeltaChannels.contains ch) }

/-- Modelled from the spec: `setLoadType`. -/
def Collection.setLoadType (c : Collection) (l : LoadType) : Collection :=
  { c with loadType := l }

/-- Errors surfaced by the task layer, one constructor per `errors.New` /
`fmt.Errorf` site reached by the embedded code paths. -/
inductive QNError where
  | errIllegalChannelLength (collectionID : Int)
  | errCannotFindCollection (collectionID : Int)
  | errLoadSegmentFailed
  | errAddFlowGraphFailed
  | errConsumeFailed (channel : String)
  | errSeekFailed (channel : String)
  | errFromDmlCPFailed (channel : String)
  | errReleaseCollectionFailed (collectionID : Int)
  | errReleasePartitionsFailed (collectionID : Int)
  | errRemovePartitionFailed (partitionID : Int)
deriving Repr, DecidableEq

/-- Replica registry (streaming or historical). Modelled from the spec: §4.3
ReplicaRegistry with collection catalog, partitions, segments and the
excluded-segment sets. Partitions are stored as (partitionID, collectionID);
`hasPartition` is keyed by partition id alone. -/
structure Replica where
  collections : List (Int × Collection)
  partitions : List (Int × Int)
  segments : List Int
  excludedSegments : List (Int × List SegmentInfo)
deriving Repr, DecidableEq

/-- Empty replica. -/
def Replica.empty : Replica := ⟨[], [], [], []⟩

/-- Modelled from the spec: `addCollection(id, schema)` is an idempotent add by id. -/
def Replica.addCollection (r : Replica) (cid : Int) (schema : Nat) : Replica :=
  if (alookup r.collections cid).isSome then r
  else { r with collections := (cid, Collection.new schema) :: r.collections }

/-- Modelled from the spec: `hasCollection`. -/
def Replica.hasCollectionB (r : Replica) (cid : Int) : Bool :=
  (alookup r.collections cid).isSome

/-- Modelled from the spec: `hasPartition`, keyed by partition id. -/
def Replica.hasPartitionB (r : Replica) (pid : Int) : Bool :=
  r.partitions.any (fun p => decide (p.1 = pid))

/-- Modelled from the spec: `addPartition(cid, pid)` fails when the collection
is missing and does not duplicate an existing partition. -/
def Replica.addPartition (r : Replica) (cid pid : Int) : Replica × Option QNError :=
  if (alookup r.collections cid).isSome then
    (if r.hasPartitionB pid then r else { r with partitions := r.partitions ++ [(pid, cid)] }, none)
  else
    (r, some (QNError.errCannotFindCollection cid))

/-- Modelled from the spec: `removePartition(pid)` drops the partition entry. -/
def Replica.removePartition (r : Replica) (pid : Int) : Replica :=
  { r with partitions := r.partitions.filter (fun p => !decide (p.1 = pid)) }

/-- Modelled from the spec: `removeSegment(sid)`; double-remove is a no-op. -/
def Replica.removeSegment (r : Replica) (sid : Int) : Replica :=
  { r with segments := r.segments.filter (fun s => !decide (s = sid)) }

/-- Modelled from the spec: `addExcludedSegments(cid, infos)` appends to the
per-collection excluded set. -/
def Replica.addExcludedSegments (r : Replica) (cid : Int) (infos : List SegmentInfo) : Replica :=
  match alookup r.excludedSegments cid with
  | none => { r with excludedSegments := r.excludedSegments ++ [(cid, infos)] }
  | some old => { r with excludedSegments := aupsert r.excludedSegments cid (old ++ infos) }

/-- Modelled from the spec: `removeExcludedSegments(cid)` drops the per-collection set. -/
def Replica.removeExcludedSegments (r : Replica) (cid : Int) : Replica :=
  { r with excludedSegments := r.excludedSegments.filter (fun p => !decide (p.1 = cid)) }

/-- Modelled from the spec: `removeCollection(cid)` drops the collection entry,
failing when it is absent. -/
def Replica.removeCollection (r : Replica) (cid : Int) : Replica × Option QNError :=
  match alookup r.collections cid with
  | none => (r, some (QNError.errCannotFindCollection cid))
  | some _ => ({ r with collections := r.collections.filter (fun p => !decide (p.1 = cid)) }, none)

/-- Modelled from the spec: `updateCollection` applies an in-place mutation made
through a collection handle obtained from the replica. -/
def Replica.updateCollection (r : Replica) (cid : Int) (f : Collection → Collection) : Replica :=
  { r with collections := r.collections.map (fun p => if p.1 = cid then (p.1, f p.2) else p) }

/-- Query shard registered in the QueryShardService, keyed by its DML channel.
Modelled from the spec: §4.5. -/
structure QueryShard where
  channel : String
  collectionID : Int
  replicaID : Int
deriving Repr, DecidableEq

/-- ReplicaType of `releaseCollectionTask.releaseReplica` (source constants). -/
inductive ReplicaType where
  | replicaNone
  | replicaStreaming
  | replicaHistorical
deriving Repr, DecidableEq

/-- Observable events emitted by task execution, in program order. -/
inductive Event where
  | consumeFG (pchannel sub : String)
  | consumeFGFromLatest (pchannel sub : String)
  | seekFG (pchannel : String)
  | fromDmlCP (collectionID : Int) (vchannel : String)
  | closeFG (vchannel : String)
  | startFG (vchannel : String)
  | removeDmlFGs (vchannels : List String)
  | removeDeltaFGs (vchannels : List String)
  | queryLock (rt : ReplicaType)
  | queryUnlock (rt : ReplicaType)
  | setReleaseTime (collectionID : Int) (ts : Nat)
  | addTSafe (vchannel : String)
  | removeTSafe (vchannel : String)
  | watchDMLTSafe (vchannel : String)
  | watchDeltaTSafe (vchannel : String)
  | removePartition (rt : ReplicaType) (partitionID : Int)
  | removeExcluded (rt : ReplicaType) (collectionID : Int)
  | removeCollection (rt : ReplicaType) (collectionID : Int)
  | releaseShards (collectionID : Int)
deriving Repr, DecidableEq

/-- Whole-node state owned by the QueryNode: the two replicas, the flow-graph
service (channels holding DML resp. Delta graphs), the tSafe replica, the
query-shard registry and the shard-cluster registry. -/
structure QueryNodeState where
  streaming : Replica
  historical : Replica
  fgDml : List String
  fgDelta : List String
  tSafe : List String
  queryShards : List QueryShard
  shardClusters : List (Int × Int × String)
deriving Repr, DecidableEq

/-- Empty node state. -/
def QueryNodeState.empty : QueryNodeState := ⟨Replica.empty, Replica.empty, [], [], [], [], []⟩

/-- Oracles deciding the outcome of every fallible collaborator call; the task
layer treats these collaborators as external (spec §1). -/
structure Env where
  loadGrowingOk : Bool
  loadSealedOk : Bool
  addDmlFGOk : Bool
  addDeltaFGOk : Bool
  consumeOk : String → Bool
  seekOk : String → Bool
  consumeLatestOk : String → Bool
  fromDmlCPOk : String → Bool
  getQueryShardOk : String → Bool
  removePartitionOk : Int → Bool

/-- Environment in which every collaborator call succeeds. -/
def Env.allOk : Env :=
  ⟨true, true, true, true, fun _ => true, fun _ => true, fun _ => true,
   fun _ => true, fun _ => true, fun _ => true⟩

/-- Characters preceding the last underscore, or `none` when there is none. -/
def beforeLastUnderscore : List Char → Option (List Char)
  | [] => none
  | c :: rest =>
    match beforeLastUnderscore rest with
    | some l => some (c :: l)
    | none => if c = '_' then some [] else none

/-- Modelled from the spec: `funcutil.ToPhysicalChannel` deterministically strips
the per-virtual suffix after the final underscore of a virtual channel name;
a name with no underscore is returned unchanged. -/
def toPhysicalChannel (vchan : String) : String :=
  match beforeLastUnderscore vchan.toList with
  | none => vchan
  | some l => String.mk l

/-- Configured node subscription-name root (`Params.CommonCfg.QueryNodeSubName`). -/
def paramsQueryNodeSubName : String := "by-dev-queryNode"

/-- Configured node id (`Params.QueryNodeCfg.GetNodeID()`). -/
def paramsNodeID : Int := 1

/-- Configured dml channel root (`Params.CommonCfg.RootCoordDml`). -/
def paramsRootCoordDml : String := "by-dev-rootcoord-dml"

/-- Configured delta channel root (`Params.CommonCfg.RootCoordDelta`). -/
def paramsRootCoordDelta : String := "by-dev-rootcoord-delta"

/-- Modelled from the spec: `funcutil.GenChannelSubName` builds the deterministic
subscription name from the configured root, the collection id and the node id. -/
def genChannelSubName (root : String) (collectionID nodeID : Int) : String :=
  root ++ "-" ++ toString collectionID ++ "-" ++ toString nodeID

/-- Subscription name used by the tasks for a collection. -/
def genSubName (collectionID : Int) : String :=
  genChannelSubName paramsQueryNodeSubName collectionID paramsNodeID

/-- Holds when the second character list begins with the first. -/
def charsLeadWith : List Char → List Char → Bool
  | [], _ => true
  | _ :: _, [] => false
  | a :: as, b :: bs => if a = b then charsLeadWith as bs else false

/-- Modelled from the spec: `funcutil.ConvertChannelName` substitutes the delta
root with the dml root; it fails when the name does not carry the delta root. -/
def convertChannelName (ch oldRoot newRoot : String) : Option String :=
  if charsLeadWith oldRoot.toList ch.toList then
    some (newRoot ++ String.mk (ch.toList.drop oldRoot.toList.length))
  else none

/-- Segment type argument of `loader.loadSegment` (source constants). -/
inductive SegmentType where
  | segmentTypeGrowing
  | segmentTypeSealed
deriving Repr, DecidableEq

/-- Modelled from the spec: `SegmentLoader.loadSegment` places growing segments
into the streaming replica and sealed segments into the historical replica;
failure leaves the node state unchanged and surfaces an error. -/
def loadSegmentModel (env : Env) (ty : SegmentType) (req : LoadSegmentsRequest)
    (s : QueryNodeState) : QueryNodeState × Option QNError :=
  match ty with
  | SegmentType.segmentTypeGrowing =>
    if env.loadGrowingOk then
      ({ s with streaming :=
          { s.streaming with segments := s.streaming.segments ++ req.Infos.map (·.SegmentID) } }, none)
    else (s, some QNError.errLoadSegmentFailed)
  | SegmentType.segmentTypeSealed =>
    if env.loadSealedOk then
      ({ s with historical :=
          { s.historical with segments := s.historical.segments ++ req.Infos.map (·.SegmentID) } }, none)
    else (s, some QNError.errLoadSegmentFailed)

/-! ## watchDmChannelsTask.Execute, stage by stage -/

/-- Stage 1 of `watchDmChannelsTask.Execute`: the effective load type. When the
request load type is unknown it is `LoadPartition` exactly when
`req.GetPartitionIDs()` is non-empty, else `LoadCollection`. -/
def effectiveLoadType (w : WatchDmChannelsRequest) : LoadType :=
  if w.GetLoadType = LoadType.UnKnownType then
    (if w.PartitionIDs.length ≠ 0 then LoadType.LoadPartition else LoadType.LoadCollection)
  else w.GetLoadType

/-- Virtual channels of the request, in request order. -/
def dmVChannels (w : WatchDmChannelsRequest) : List String :=
  w.Infos.map (·.ChannelName)

/-- Physical channels of the request, in request order. -/
def dmPChannels (w : WatchDmChannelsRequest) : List String :=
  w.Infos.map (fun i => toPhysicalChannel i.ChannelName)

/-- The `VPChannels` Go map: virtual channel to physical channel, built by
repeated map writes so duplicate virtual names collapse. -/
def mkVPChannels (infos : List VchannelInfo) : List (String × String) :=
  infos.foldl (fun m i => aupsert m i.ChannelName (toPhysicalChannel i.ChannelName)) []

/-- Unflushed segment infos converted into `SegmentLoadInfo`, skipping segments
with no binlogs (source lines 240-256). -/
def gatherUnflushed (infos : List VchannelInfo) : List SegmentLoadInfo :=
  infos.flatMap (fun info => info.UnflushedSegments.filterMap (fun uf =>
    if 0 < uf.Binlogs.length then
      some ⟨uf.ID, uf.PartitionID, uf.CollectionID, uf.Binlogs, uf.NumOfRows, uf.Statslogs, uf.Deltalogs⟩
    else none))

/-- The `channel2SeekPosition` Go map: channels whose seek position carries a
non-empty message id, with the position's `MsgGroup` stamped (source lines 304-313). -/
def channel2SeekPosition (infos : List VchannelInfo) (sub : String) : List (String × MsgPosition) :=
  infos.filterMap (fun i =>
    match i.SeekPosition with
    | none => none
    | some p =>
      if p.MsgID.length = 0 then none
      else some (i.ChannelName, { p with MsgGroup := sub }))

/-- The `channel2AsConsumerPosition` Go map: channels with no usable seek
position, consumed from latest (source lines 304-313). -/
def channel2AsConsumerPosition (infos : List VchannelInfo) : List (String × Option MsgPosition) :=
  infos.filterMap (fun i =>
    match i.SeekPosition with
    | none => some (i.ChannelName, none)
    | some p => if p.MsgID.length = 0 then some (i.ChannelName, some p) else none)

/-- Seek positions computed by `watchDmChannelsTask.Execute` for its request. -/
def dmSeekPositions (w : WatchDmChannelsRequest) : List (String × MsgPosition) :=
  channel2SeekPosition w.Infos (genSubName w.CollectionID)

/-- Excluded-segment step (a): all unflushed segment infos (source lines 318-322). -/
def unFlushedCheckPointInfos (infos : List VchannelInfo) : List SegmentInfo :=
  infos.flatMap (·.UnflushedSegments)

/-- Excluded-segment step (b): flushed segments whose dml position is non-nil,
sits on some seek channel and has a strictly later timestamp (source lines 334-345). -/
def flushedCheckPointInfos (infos : List VchannelInfo)
    (seeks : List (String × MsgPosition)) : List SegmentInfo :=
  infos.flatMap (fun info => info.FlushedSegments.flatMap (fun fs =>
    seeks.filterMap (fun pr =>
      match fs.DmlPosition with
      | none => none
      | some dp =>
        if dp.ChannelName = pr.2.ChannelName ∧ pr.2.Timestamp < dp.Timestamp then some fs
        else none)))

/-- Dropped-segment positions of one dropped segment against every seek position
(source lines 356-364): the source checks the element pointer against nil but
then dereferences `DmlPosition` unconditionally, so a present segment whose
`DmlPosition` is nil panics (modelled as `none`) as soon as one seek position
is compared against it. -/
def droppedMatchesOne (seg : SegmentInfo) :
    List (String × MsgPosition) → Option (List SegmentInfo)
  | [] => some []
  | pr :: rest =>
    match seg.DmlPosition with
    | none => none
    | some dp =>
      match droppedMatchesOne seg rest with
      | none => none
      | some l =>
        if dp.ChannelName = pr.2.ChannelName ∧ pr.2.Timestamp < dp.Timestamp then some (seg :: l)
        else some l

/-- Dropped-segment contributions of one channel info (source lines 356-364); a
nil element pointer short-circuits the condition and is skipped. -/
def droppedMatchesInfo (drops : List (Option SegmentInfo))
    (seeks : List (String × MsgPosition)) : Option (List SegmentInfo) :=
  match drops with
  | [] => some []
  | none :: rest => droppedMatchesInfo rest seeks
  | some seg :: rest =>
    match droppedMatchesOne seg seeks with
    | none => none
    | some l =>
      match droppedMatchesInfo rest seeks with
      | none => none
      | some l2 => some (l ++ l2)

/-- Excluded-segment step (c) as the source implements it (lines 354-365):
dropped segments against all seek positions; `none` models the nil-pointer
panic on a present segment with nil `DmlPosition`. -/
def droppedCheckPointInfos (infos : List VchannelInfo)
    (seeks : List (String × MsgPosition)) : Option (List SegmentInfo) :=
  match infos with
  | [] => some []
  | info :: rest =>
    match droppedMatchesInfo info.DroppedSegments seeks with
    | none => none
    | some l =>
      match droppedCheckPointInfos rest seeks with
      | none => none
      | some l2 => some (l ++ l2)

/-- Modelled from the spec: the flushed-segment exclusion rule of §4.2.2 step
8(b) applied verbatim to the dropped segments, as claim C3 states it: a nil
element or a nil `DmlPosition` is skipped and the step never fails. -/
def droppedCheckPointInfosSpec (infos : List VchannelInfo)
    (seeks : List (String × MsgPosition)) : List SegmentInfo :=
  infos.flatMap (fun info => info.DroppedSegments.flatMap (fun od =>
    match od with
    | none => []
    | some seg =>
      seeks.filterMap (fun pr =>
        match seg.DmlPosition with
        | none => none
        | some dp =>
          if dp.ChannelName = pr.2.ChannelName ∧ pr.2.Timestamp < dp.Timestamp then some seg
          else none)))

/-- Consume/seek attachment loop of `watchDmChannelsTask.Execute` (source lines
381-401), iterating over the created flow-graphs in channel order: a channel
classified consume-from-latest is attached via `consumeFlowGraph` on its
physical channel, a channel classified seek is attached via
`seekQueryNodeFlowGraph` with the position rewritten to the physical channel;
the loop stops at the first failure. -/
def attachChannels (env : Env) (sub : String) (vp : List (String × String))
    (cons : List (String × Option MsgPosition)) (seeks : List (String × MsgPosition)) :
    List String → List Event × Option QNError
  | [] => ([], none)
  | ch :: rest =>
    let p := (alookup vp ch).getD ""
    let consEv : List Event :=
      if (alookup cons ch).isSome then [Event.consumeFG p sub] else []
    if (alookup cons ch).isSome = true ∧ env.consumeOk ch = false then
      (consEv, some (QNError.errConsumeFailed ch))
    else
      let seekEv : List Event :=
        if (alookup seeks ch).isSome then [Event.seekFG p] else []
      if (alookup seeks ch).isSome = true ∧ env.seekOk ch = false then
        (consEv ++ seekEv, some (QNError.errSeekFailed ch))
      else
        let pr := attachChannels env sub vp cons seeks rest
        (consEv ++ seekEv ++ pr.1, pr.2)

/-- Attachment loop outcome of a WatchDmChannels request. -/
def dmAttachResult (env : Env) (w : WatchDmChannelsRequest) : List Event × Option QNError :=
  attachChannels env (genSubName w.CollectionID) (mkVPChannels w.Infos)
    (channel2AsConsumerPosition w.Infos) (dmSeekPositions w) (dmVChannels w)

/-- Partition registrations of source lines 269-272: streaming first, then
historical, the returned errors discarded. -/
def addPartitionsDiscardSH (s : QueryNodeState) (cid : Int) : List Int → QueryNodeState
  | [] => s
  | pid :: rest =>
    let s1 := { s with streaming := (s.streaming.addPartition cid pid).1 }
    let s2 := { s1 with historical := (s1.historical.addPartition cid pid).1 }
    addPartitionsDiscardSH s2 cid rest

/-- Partition registrations of source lines 273-276: historical first, then
streaming, the returned errors discarded. -/
def addPartitionsDiscardHS (s : QueryNodeState) (cid : Int) : List Int → QueryNodeState
  | [] => s
  | pid :: rest =>
    let s1 := { s with historical := (s.historical.addPartition cid pid).1 }
    let s2 := { s1 with streaming := (s1.streaming.addPartition cid pid).1 }
    addPartitionsDiscardHS s2 cid rest

/-- Modelled from the spec: `ShardClusterService.addShardCluster` registers a
(collection, replica, vchannel) shard cluster, once. -/
def addShardClusters (l : List (Int × Int × String)) (cid rid : Int) :
    List String → List (Int × Int × String)
  | [] => l
  | ch :: rest =>
    let l1 := if l.contains (cid, rid, ch) then l else l ++ [(cid, rid, ch)]
    addShardClusters l1 cid rid rest

/-- Modelled from the spec: `addFlowGraphsForDMLChannels` /
`addFlowGraphsForDeltaChannels` create the missing graphs for the channels. -/
def addFGChannels (fg : List String) (chs : List String) : List String :=
  fg ++ chs.filter (fun ch => !fg.contains ch)

/-- Rollback helper of source lines 293-299: remove every growing segment the
task loaded from the streaming replica. -/
def removeSegmentsState (s : QueryNodeState) : List Int → QueryNodeState
  | [] => s
  | sid :: rest => removeSegmentsState { s with streaming := s.streaming.removeSegment sid } rest

/-- Modelled from the spec: `tSafeReplica.addTSafe` creates the per-channel entry. -/
def addTSafes (t : List String) (chs : List String) : List String :=
  t ++ chs.filter (fun ch => !t.contains ch)

/-- Collection-metadata update applied to both replicas (source lines 418-424). -/
def updateBothCollections (s : QueryNodeState) (cid : Int) (f : Collection → Collection) :
    QueryNodeState :=
  { s with streaming := s.streaming.updateCollection cid f,
           historical := s.historical.updateCollection cid f }

/-- Query-shard stage of `watchDmChannelsTask.Execute` (source lines 433-447):
ensure a query shard per vchannel, then attach its DML tSafe watch; a failed
shard lookup is skipped, a failed watch is only logged. -/
def dmShardStage (env : Env) (cid rid : Int) :
    QueryNodeState → List String → QueryNodeState × List Event
  | s, [] => (s, [])
  | s, ch :: rest =>
    let s1 :=
      if (s.queryShards.any (fun q => decide (q.channel = ch))) then s
      else { s with queryShards := s.queryShards ++ [⟨ch, cid, rid⟩] }
    let evs1 : List Event := if env.getQueryShardOk ch then [Event.watchDMLTSafe ch] else []
    let pr := dmShardStage env cid rid s1 rest
    (pr.1, evs1 ++ pr.2)

/-- Execution of `watchDmChannelsTask.Execute` (source lines 189-456). The outer
`Option` is `none` when the Go code dereferences a nil pointer: the
unconditional `w.req.Base.MsgID` read at line 260 and the dropped-segment
`DmlPosition` read at line 359. -/
def watchDmChannelsExecute (env : Env) (w : WatchDmChannelsRequest) (s : QueryNodeState) :
    Option (QueryNodeState × List Event × Option QNError) :=
  let collectionID := w.CollectionID
  let lType := effectiveLoadType w
  let vChannels := dmVChannels w
  let pChannels := dmPChannels w
  if (mkVPChannels w.Infos).length = vChannels.length then
    let s1 := { s with streaming := s.streaming.addCollection collectionID w.Schema,
                       historical := s.historical.addCollection collectionID w.Schema }
    let s2 := { s1 with shardClusters := addShardClusters s1.shardClusters collectionID w.ReplicaID vChannels }
    match w.Base with
    | none => none
    | some base =>
      let loadReq : LoadSegmentsRequest :=
        ⟨some ⟨base.MsgID, 0⟩, gatherUnflushed w.Infos, w.Schema, collectionID, w.LoadMeta⟩
      let s3 := addPartitionsDiscardSH s2 collectionID (loadReq.Infos.map (·.PartitionID))
      let s4 := addPartitionsDiscardHS s3 collectionID loadReq.GetLoadMetaPartitionIDs
      match loadSegmentModel env SegmentType.segmentTypeGrowing loadReq s4 with
      | (s5, some e) => some (s5, [], some e)
      | (s5, none) =>
        let unFlushedSegmentIDs := loadReq.Infos.map (·.SegmentID)
        let seeks := dmSeekPositions w
        let s6 := { s5 with streaming :=
          s5.streaming.addExcludedSegments collectionID (unFlushedCheckPointInfos w.Infos) }
        let s7 := { s6 with streaming :=
          s6.streaming.addExcludedSegments collectionID (flushedCheckPointInfos w.Infos seeks) }
        match droppedCheckPointInfos w.Infos seeks with
        | none => none
        | some dropped =>
          let s8 := { s7 with streaming := s7.streaming.addExcludedSegments collectionID dropped }
          if env.addDmlFGOk then
            let s9 := { s8 with fgDml := addFGChannels s8.fgDml vChannels }
            let ar := dmAttachResult env w
            match ar.2 with
            | some e =>
              let s10 := { s9 with fgDml := s9.fgDml.filter (fun ch => !vChannels.contains ch) }
              let s11 := removeSegmentsState s10 unFlushedSegmentIDs
              some (s11, ar.1 ++ vChannels.map Event.closeFG ++ [Event.removeDmlFGs vChannels], some e)
            | none =>
              let s10 := updateBothCollections s9 collectionID
                (fun c => (((c.addVChannels vChannels).addPChannels pChannels).setLoadType lType))
              let s11 := { s10 with tSafe := addTSafes s10.tSafe vChannels }
              let evT := vChannels.map Event.addTSafe
              let pr := dmShardStage env collectionID w.ReplicaID s11 vChannels
              some (pr.1, ar.1 ++ evT ++ pr.2 ++ vChannels.map Event.startFG, none)
          else
            let s9 := removeSegmentsState s8 unFlushedSegmentIDs
            some (s9, [], some QNError.errAddFlowGraphFailed)
  else
    some (s, [], some (QNError.errIllegalChannelLength collectionID))

/-! ## watchDeltaChannelsTask.Execute -/

/-- Virtual delta channels of the request, in request order. -/
def deltaVChannels (w : WatchDeltaChannelsRequest) : List String :=
  w.Infos.map (·.ChannelName)

/-- Physical delta channels of the request, in request order. -/
def deltaPChannels (w : WatchDeltaChannelsRequest) : List String :=
  w.Infos.map (fun i => toPhysicalChannel i.ChannelName)

/-- Consumer attachment loop of `watchDeltaChannelsTask.Execute` (source lines
535-547): every delta flow-graph consumes from latest on its physical channel,
then deletes are replayed from the DML checkpoint; the loop stops at the first
failure. -/
def deltaAttachChannels (env : Env) (cid : Int) (sub : String) (vp : List (String × String)) :
    List String → List Event × Option QNError
  | [] => ([], none)
  | ch :: rest =>
    let p := (alookup vp ch).getD ""
    if env.consumeLatestOk ch = false then
      ([Event.consumeFGFromLatest p sub], some (QNError.errConsumeFailed ch))
    else
      if env.fromDmlCPOk ch = false then
        ([Event.consumeFGFromLatest p sub, Event.fromDmlCP cid ch],
         some (QNError.errFromDmlCPFailed ch))
      else
        let pr := deltaAttachChannels env cid sub vp rest
        ([Event.consumeFGFromLatest p sub, Event.fromDmlCP cid ch] ++ pr.1, pr.2)

/-- Attachment loop outcome of a WatchDeltaChannels request. -/
def deltaAttachResult (env : Env) (w : WatchDeltaChannelsRequest) : List Event × Option QNError :=
  deltaAttachChannels env w.CollectionID (genSubName w.CollectionID)
    (mkVPChannels w.Infos) (deltaVChannels w)

/-- Query-shard stage of `watchDeltaChannelsTask.Execute` (source lines 576-595):
convert each delta channel to its dml channel (skipping channels that fail to
convert), ensure a query shard, then attach its delta tSafe watch; a failed
shard lookup is skipped, a failed watch is only logged. -/
def deltaShardStage (env : Env) (cid rid : Int) :
    QueryNodeState → List String → QueryNodeState × List Event
  | s, [] => (s, [])
  | s, ch :: rest =>
    let step : QueryNodeState × List Event :=
      match convertChannelName ch paramsRootCoordDelta paramsRootCoordDml with
      | none => (s, [])
      | some dmlChannel =>
        let s1 :=
          if (s.queryShards.any (fun q => decide (q.channel = dmlChannel))) then s
          else { s with queryShards := s.queryShards ++ [⟨dmlChannel, cid, rid⟩] }
        let evs1 : List Event :=
          if env.getQueryShardOk dmlChannel then [Event.watchDeltaTSafe dmlChannel] else []
        (s1, evs1)
    let pr := deltaShardStage env cid rid step.1 rest
    (pr.1, step.2 ++ pr.2)

/-- Execution of `watchDeltaChannelsTask.Execute` (source lines 484-604). The
delta task dereferences no nil pointer, so the result is total. -/
def watchDeltaChannelsExecute (env : Env) (w : WatchDeltaChannelsRequest) (s : QueryNodeState) :
    QueryNodeState × List Event × Option QNError :=
  let collectionID := w.CollectionID
  let vDeltaChannels := deltaVChannels w
  let pDeltaChannels := deltaPChannels w
  if (mkVPChannels w.Infos).length = vDeltaChannels.length then
    if s.historical.hasCollectionB collectionID then
      if s.streaming.hasCollectionB collectionID then
        if env.addDeltaFGOk then
          let s1 := { s with fgDelta := addFGChannels s.fgDelta vDeltaChannels }
          let ar := deltaAttachResult env w
          match ar.2 with
          | some e =>
            let s2 := { s1 with fgDelta := s1.fgDelta.filter (fun ch => !vDeltaChannels.contains ch) }
            (s2, ar.1 ++ vDeltaChannels.map Event.closeFG ++ [Event.removeDeltaFGs vDeltaChannels],
             some e)
          | none =>
            let s2 := updateBothCollections s1 collectionID
              (fun c => ((c.addVDeltaChannels vDeltaChannels).addPDeltaChannels pDeltaChannels))
            let s3 := { s2 with tSafe := addTSafes s2.tSafe vDeltaChannels }
            let evT := vDeltaChannels.map Event.addTSafe
            let pr := deltaShardStage env collectionID w.ReplicaId s3 vDeltaChannels
            (pr.1, ar.1 ++ evT ++ pr.2 ++ vDeltaChannels.map Event.startFG, none)
        else (s, [], some QNError.errAddFlowGraphFailed)
      else (s, [], some (QNError.errCannotFindCollection collectionID))
    else (s, [], some (QNError.errCannotFindCollection collectionID))
  else
    (s, [], some (QNError.errIllegalChannelLength collectionID))

/-! ## loadSegmentsTask.Execute -/

/-- Partition registrations of `loadSegmentsTask.Execute` (source lines 641-650):
historical first, then streaming; the first error aborts. -/
def addPartitionsStrict (s : QueryNodeState) (cid : Int) :
    List Int → QueryNodeState × Option QNError
  | [] => (s, none)
  | pid :: rest =>
    match s.historical.addPartition cid pid with
    | (_, some e) => (s, some e)
    | (h1, none) =>
      let s1 := { s with historical := h1 }
      match s1.streaming.addPartition cid pid with
      | (_, some e) => (s1, some e)
      | (st1, none) => addPartitionsStrict { s1 with streaming := st1 } cid rest

/-- Execution of `loadSegmentsTask.Execute` (source lines 632-660). The entry
log statement dereferences `l.req.Base.MsgID` unconditionally (line 634), so a
nil base request panics: modelled by the outer `Option`. -/
def loadSegmentsExecute (env : Env) (l : LoadSegmentsRequest) (s : QueryNodeState) :
    Option (QueryNodeState × List Event × Option QNError) :=
  match l.Base with
  | none => none
  | some _ =>
    let collectionID := l.CollectionID
    let s1 := { s with historical := s.historical.addCollection collectionID l.Schema,
                       streaming := s.streaming.addCollection collectionID l.Schema }
    match addPartitionsStrict s1 collectionID l.GetLoadMetaPartitionIDs with
    | (s2, some e) => some (s2, [], some e)
    | (s2, none) =>
      match loadSegmentModel env SegmentType.segmentTypeSealed l s2 with
      | (s3, some e) => some (s3, [], some e)
      | (s3, none) => some (s3, [], none)

/-! ## releaseCollectionTask.Execute -/

/-- Replica selected by a `ReplicaType`; the task only ever passes
`replicaStreaming` or `replicaHistorical` together with the matching replica,
and `replicaNone` is never constructed. -/
def getReplicaOf (s : QueryNodeState) : ReplicaType → Replica
  | ReplicaType.replicaStreaming => s.streaming
  | ReplicaType.replicaHistorical => s.historical
  | ReplicaType.replicaNone => s.streaming

/-- Writes back the replica selected by a `ReplicaType`. -/
def setReplicaOf (s : QueryNodeState) (rt : ReplicaType) (r : Replica) : QueryNodeState :=
  match rt with
  | ReplicaType.replicaStreaming => { s with streaming := r }
  | ReplicaType.replicaHistorical => { s with historical := r }
  | ReplicaType.replicaNone => { s with streaming := r }

/-- Execution of `releaseCollectionTask.releaseReplica` (source lines 725-766):
lock, fetch the collection (releasing the lock and failing when absent), set
the release time from `r.req.Base.Timestamp` (an unconditional dereference:
`none` models the panic on a nil base), unlock, remove the flow-graphs of the
replica-specific channel list, remove their tSafe entries, remove the
excluded-segment set and finally the collection entry. -/
def releaseReplicaStep (w : ReleaseCollectionRequest) (s : QueryNodeState) (rt : ReplicaType) :
    Option (QueryNodeState × List Event × Option QNError) :=
  match alookup (getReplicaOf s rt).collections w.CollectionID with
  | none =>
    some (s, [Event.queryLock rt, Event.queryUnlock rt],
      some (QNError.errCannotFindCollection w.CollectionID))
  | some col =>
    match w.Base with
    | none => none
    | some base =>
      let s1 := setReplicaOf s rt ((getReplicaOf s rt).updateCollection w.CollectionID
        (fun c => { c with releaseTime := base.Timestamp }))
      let channels := if rt = ReplicaType.replicaStreaming then col.vChannels else col.vDeltaChannels
      let s2 :=
        if rt = ReplicaType.replicaStreaming then
          { s1 with fgDml := s1.fgDml.filter (fun ch => !channels.contains ch) }
        else
          { s1 with fgDelta := s1.fgDelta.filter (fun ch => !channels.contains ch) }
      let fgEvent :=
        if rt = ReplicaType.replicaStreaming then Event.removeDmlFGs channels
        else Event.removeDeltaFGs channels
      let s3 := { s2 with tSafe := s2.tSafe.filter (fun ch => !channels.contains ch) }
      let s4 := setReplicaOf s3 rt ((getReplicaOf s3 rt).removeExcludedSegments w.CollectionID)
      let headEvents := [Event.queryLock rt, Event.setReleaseTime w.CollectionID base.Timestamp,
        Event.queryUnlock rt, fgEvent] ++ channels.map Event.removeTSafe ++
        [Event.removeExcluded rt w.CollectionID]
      match (getReplicaOf s4 rt).removeCollection w.CollectionID with
      | (rep1, some e) => some (setReplicaOf s4 rt rep1, headEvents, some e)
      | (rep1, none) =>
        some (setReplicaOf s4 rt rep1,
          headEvents ++ [Event.removeCollection rt w.CollectionID], none)

/-- Execution of `releaseCollectionTask.Execute` (source lines 696-723): release
the streaming replica, then the historical replica (each failure wrapped into a
release-collection error), then ask the query-shard service to release the
collection. The graceful one-second sleep and the OS memory return have no
state effect and are not modelled. -/
def releaseCollectionExecute (w : ReleaseCollectionRequest) (s : QueryNodeState) :
    Option (QueryNodeState × List Event × Option QNError) :=
  match releaseReplicaStep w s ReplicaType.replicaStreaming with
  | none => none
  | some (s1, tr1, some _) =>
    some (s1, tr1, some (QNError.errReleaseCollectionFailed w.CollectionID))
  | some (s1, tr1, none) =>
    match releaseReplicaStep w s1 ReplicaType.replicaHistorical with
    | none => none
    | some (s2, tr2, some _) =>
      some (s2, tr1 ++ tr2, some (QNError.errReleaseCollectionFailed w.CollectionID))
    | some (s2, tr2, none) =>
      let shards := s2.queryShards.filter (fun q => !decide (q.collectionID = w.CollectionID))
      some ({ s2 with queryShards := shards },
            tr1 ++ tr2 ++ [Event.releaseShards w.CollectionID], none)

/-! ## releasePartitionsTask.Execute -/

/-- Per-partition removal of `releasePartitionsTask.Execute` (source lines
814-832): remove from historical when present, then from streaming when
present; a removal error is only logged. A removal whose oracle reports
failure leaves the replica unchanged. -/
def releaseOnePartition (env : Env) (s : QueryNodeState) (pid : Int) :
    QueryNodeState × List Event :=
  let st1 :=
    if s.historical.hasPartitionB pid then
      (if env.removePartitionOk pid then { s with historical := s.historical.removePartition pid }
       else s,
       [Event.removePartition ReplicaType.replicaHistorical pid])
    else (s, ([] : List Event))
  if st1.1.streaming.hasPartitionB pid then
    (if env.removePartitionOk pid then
       { st1.1 with streaming := st1.1.streaming.removePartition pid }
     else st1.1,
     st1.2 ++ [Event.removePartition ReplicaType.replicaStreaming pid])
  else st1

/-- Removal loop of `releasePartitionsTask.Execute` over the requested ids. -/
def releasePartitionsLoop (env : Env) : QueryNodeState → List Int → QueryNodeState × List Event
  | s, [] => (s, [])
  | s, pid :: rest =>
    let pr := releaseOnePartition env s pid
    let pr2 := releasePartitionsLoop env pr.1 rest
    (pr2.1, pr.2 ++ pr2.2)

/-- Execution of `releasePartitionsTask.Execute` (source lines 794-838): fail
when the collection is absent from the historical or the streaming replica,
then best-effort removal of every requested partition; the loop never aborts. -/
def releasePartitionsExecute (env : Env) (w : ReleasePartitionsRequest) (s : QueryNodeState) :
    QueryNodeState × List Event × Option QNError :=
  match alookup s.historical.collections w.CollectionID with
  | none => (s, [], some (QNError.errReleasePartitionsFailed w.CollectionID))
  | some _ =>
    match alookup s.streaming.collections w.CollectionID with
    | none => (s, [], some (QNError.errReleasePartitionsFailed w.CollectionID))
    | some _ =>
      let pr := releasePartitionsLoop env s w.PartitionIDs
      (pr.1, pr.2, none)

/-! ## Timestamp and OnEnqueue of every task variant -/

/-- Modelled from the source of `rand.Int63n(n)`: a value uniformly drawn from
the half-open interval [0, n), here as a function of the random draw `r`. -/
def randInt63n (n : Int) (r : Nat) : Int := (r : Int) % n

/-- The bound used at every `OnEnqueue` call site: `rand.Int63n(100000000000)`. -/
def onEnqueueRandBound : Int := 100000000000

/-- Timestamp of addQueryChannelTask (source lines 109-115). -/
def addQueryChannelTask.Timestamp (r : AddQueryChannelRequest) : Nat :=
  match r.Base with
  | none => 0
  | some b => b.Timestamp

/-- Timestamp of watchDmChannelsTask (source lines 168-174). -/
def watchDmChannelsTask.Timestamp (w : WatchDmChannelsRequest) : Nat :=
  match w.Base with
  | none => 0
  | some b => b.Timestamp

/-- Timestamp of watchDeltaChannelsTask (source lines 463-469). -/
def watchDeltaChannelsTask.Timestamp (w : WatchDeltaChannelsRequest) : Nat :=
  match w.Base with
  | none => 0
  | some b => b.Timestamp

/-- Timestamp of loadSegmentsTask (source lines 611-617). -/
def loadSegmentsTask.Timestamp (l : LoadSegmentsRequest) : Nat :=
  match l.Base with
  | none => 0
  | some b => b.Timestamp

/-- Timestamp of releaseCollectionTask (source lines 667-673). -/
def releaseCollectionTask.Timestamp (r : ReleaseCollectionRequest) : Nat :=
  match r.Base with
  | none => 0
  | some b => b.Timestamp

/-- Timestamp of releasePartitionsTask (source lines 773-779). -/
def releasePartitionsTask.Timestamp (r : ReleasePartitionsRequest) : Nat :=
  match r.Base with
  | none => 0
  | some b => b.Timestamp

/-- OnEnqueue of addQueryChannelTask (source lines 117-124): the id set and the
returned error, as a function of the random draw `r`; the request pointer
itself may be nil (`none`). -/
def addQueryChannelTask.OnEnqueue (req : Option AddQueryChannelRequest) (r : Nat) :
    Int × Option QNError :=
  match req with
  | none => (randInt63n onEnqueueRandBound r, none)
  | some q =>
    match q.Base with
    | none => (randInt63n onEnqueueRandBound r, none)
    | some b => (b.MsgID, none)

/-- OnEnqueue of watchDmChannelsTask (source lines 176-183). -/
def watchDmChannelsTask.OnEnqueue (req : Option WatchDmChannelsRequest) (r : Nat) :
    Int × Option QNError :=
  match req with
  | none => (randInt63n onEnqueueRandBound r, none)
  | some q =>
    match q.Base with
    | none => (randInt63n onEnqueueRandBound r, none)
    | some b => (b.MsgID, none)

/-- OnEnqueue of watchDeltaChannelsTask (source lines 471-478). -/
def watchDeltaChannelsTask.OnEnqueue (req : Option WatchDeltaChannelsRequest) (r : Nat) :
    Int × Option QNError :=
  match req with
  | none => (randInt63n onEnqueueRandBound r, none)
  | some q =>
    match q.Base with
    | none => (randInt63n onEnqueueRandBound r, none)
    | some b => (b.MsgID, none)

/-- OnEnqueue of loadSegmentsTask (source lines 619-626). -/
def loadSegmentsTask.OnEnqueue (req : Option LoadSegmentsRequest) (r : Nat) :
    Int × Option QNError :=
  match req with
  | none => (randInt63n onEnqueueRandBound r, none)
  | some q =>
    match q.Base with
    | none => (randInt63n onEnqueueRandBound r, none)
    | some b => (b.MsgID, none)

/-- OnEnqueue of releaseCollectionTask (source lines 675-682). -/
def releaseCollectionTask.OnEnqueue (req : Option ReleaseCollectionRequest) (r : Nat) :
    Int × Option QNError :=
  match req with
  | none => (randInt63n onEnqueueRandBound r, none)
  | some q =>
    match q.Base with
    | none => (randInt63n onEnqueueRandBound r, none)
    | some b => (b.MsgID, none)

/-- OnEnqueue of releasePartitionsTask (source lines 781-788). -/
def releasePartitionsTask.OnEnqueue (req : Option ReleasePartitionsRequest) (r : Nat) :
    Int × Option QNError :=
  match req with
  | none => (randInt63n onEnqueueRandBound r, none)
  | some q =>
    match q.Base with
    | none => (randInt63n onEnqueueRandBound r, none)
    | some b => (b.MsgID, none)

/-! ## Derived notions used by the claims -/

/-- Identifies a flow-graph start event. -/
def isStartFG : Event → Bool
  | Event.startFG _ => true
  | _ => false

/-- Holds when a trace starts no flow-graph. -/
def noStartEvents (tr : List Event) : Prop :=
  tr.all (fun e => !isStartFG e) = true

/-- Segment ids of the growing segments a WatchDmChannels request loads. -/
def unFlushedSegmentIDsOf (w : WatchDmChannelsRequest) : List Int :=
  (gatherUnflushed w.Infos).map (·.SegmentID)

/-! ## Concrete sample inputs used by witnesses and counterexamples -/

/-- Sample seek position on the virtual channel of `info0`. -/
def seekPos0 : MsgPosition := ⟨"by-dev-rootcoord-dml_0_100v0", [120], "", 500⟩

/-- Sample unflushed growing segment with binlogs. -/
def ufSeg7 : SegmentInfo := ⟨7, 17, 100, ["binlog-7"], 10, [], [], none⟩

/-- Sample channel info carrying a seek position and one unflushed segment. -/
def info0 : VchannelInfo := ⟨"by-dev-rootcoord-dml_0_100v0", some seekPos0, [ufSeg7], [], []⟩

/-- Sample WatchDmChannels request (scenario 1 of the spec). -/
def wDm0 : WatchDmChannelsRequest := ⟨some ⟨11, 500⟩, 100, [], [info0], 0, none, 3⟩

/-- Environment in which every bus seek fails. -/
def envSeekFail : Env := { Env.allOk with seekOk := fun _ => false }

/-- Sample dropped segment whose position triggers the consume-or-seek rule. -/
def c3Seek : MsgPosition := ⟨"by-dev-rootcoord-dml_0_100v0", [7], "", 100⟩

/-- Dropped segment with a nil `DmlPosition`. -/
def c3Dropped : SegmentInfo := ⟨9, 17, 100, [], 0, [], [], none⟩

/-- Channel info whose dropped-segment list holds a present segment with nil
`DmlPosition`, while the channel itself is classified seek. -/
def c3Info : VchannelInfo := ⟨"by-dev-rootcoord-dml_0_100v0", some c3Seek, [], [], [some c3Dropped]⟩

/-- WatchDmChannels request built from `c3Info`. -/
def wC3 : WatchDmChannelsRequest := ⟨some ⟨1, 1⟩, 100, [], [c3Info], 0, none, 1⟩

/-- Seek positions the task computes for `wC3`. -/
def c3Seeks : List (String × MsgPosition) := dmSeekPositions wC3

/-- WatchDeltaChannels request with a duplicated virtual channel name. -/
def wDeltaDup : WatchDeltaChannelsRequest :=
  ⟨some ⟨1, 1⟩, 200, [⟨"by-dev-rootcoord-delta_0_200v0", none, [], [], []⟩,
                      ⟨"by-dev-rootcoord-delta_0_200v0", none, [], [], []⟩], 1⟩

/-- WatchDeltaChannels request with distinct channels, against an empty node. -/
def wDelta0 : WatchDeltaChannelsRequest :=
  ⟨some ⟨2, 2⟩, 200, [⟨"by-dev-rootcoord-delta_0_200v0", none, [], [], []⟩], 1⟩

/-- Streaming-replica collection used by the release witnesses. -/
def col100s : Collection := ⟨0, LoadType.LoadCollection, ["chA"], ["chA-p"], [], [], 0⟩

/-- Historical-replica collection used by the release witnesses. -/
def col100h : Collection := ⟨0, LoadType.LoadCollection, [], [], ["deltaA"], [], 0⟩

/-- Node state holding collection 100 in both replicas together with its
flow-graphs, tSafe entries, excluded set and query shard. -/
def stRelease : QueryNodeState :=
  ⟨⟨[(100, col100s)], [(17, 100)], [7], [(100, [ufSeg7])]⟩,
   ⟨[(100, col100h)], [(17, 100)], [], []⟩,
   ["chA"], ["deltaA"], ["chA", "deltaA"], [⟨"chA", 100, 3⟩], []⟩

/-- Release-collection request for collection 100. -/
def wRel0 : ReleaseCollectionRequest := ⟨some ⟨9, 700⟩, 100⟩

/-- Release-partitions request for collection 100. -/
def wRelPart0 : ReleasePartitionsRequest := ⟨some ⟨10, 800⟩, 100, [17, 23]⟩

/-- Load-segments request for collection 300. -/
def wLoad0 : LoadSegmentsRequest :=
  ⟨some ⟨12, 900⟩, [⟨31, 1, 300, ["b"], 5, [], []⟩], 0, 300, some ⟨LoadType.LoadPartition, [1, 2]⟩⟩

/-- Node state holding collection 200 in both replicas, otherwise empty. -/
def stDelta : QueryNodeState :=
  ⟨⟨[(200, Collection.new 0)], [], [], []⟩, ⟨[(200, Collection.new 0)], [], [], []⟩,
   [], [], [], [], []⟩

/-- Result state of the sample WatchDmChannels execution on the empty node. -/
def c9DmState : QueryNodeState :=
  ⟨⟨[(100, ⟨0, LoadType.LoadCollection, ["by-dev-rootcoord-dml_0_100v0"],
        ["by-dev-rootcoord-dml_0"], [], [], 0⟩)], [(17, 100)], [7], [(100, [ufSeg7])]⟩,
   ⟨[(100, ⟨0, LoadType.LoadCollection, ["by-dev-rootcoord-dml_0_100v0"],
        ["by-dev-rootcoord-dml_0"], [], [], 0⟩)], [(17, 100)], [], []⟩,
   ["by-dev-rootcoord-dml_0_100v0"], [], ["by-dev-rootcoord-dml_0_100v0"],
   [⟨"by-dev-rootcoord-dml_0_100v0", 100, 3⟩], [(100, 3, "by-dev-rootcoord-dml_0_100v0")]⟩

/-- Event trace of the sample WatchDmChannels execution on the empty node. -/
def c9DmTrace : List Event :=
  [Event.seekFG "by-dev-rootcoord-dml_0", Event.addTSafe "by-dev-rootcoord-dml_0_100v0",
   Event.watchDMLTSafe "by-dev-rootcoord-dml_0_100v0",
   Event.startFG "by-dev-rootcoord-dml_0_100v0"]

/-- Result state of the sample WatchDeltaChannels execution on `stDelta`. -/
def c9DeltaState : QueryNodeState :=
  ⟨⟨[(200, ⟨0, LoadType.UnKnownType, [], [], ["by-dev-rootcoord-delta_0_200v0"],
        ["by-dev-rootcoord-delta_0"], 0⟩)], [], [], []⟩,
   ⟨[(200, ⟨0, LoadType.UnKnownType, [], [], ["by-dev-rootcoord-delta_0_200v0"],
        ["by-dev-rootcoord-delta_0"], 0⟩)], [], [], []⟩,
   [], ["by-dev-rootcoord-delta_0_200v0"], ["by-dev-rootcoord-delta_0_200v0"],
   [⟨"by-dev-rootcoord-dml_0_200v0", 200, 1⟩], []⟩

/-- Event trace of the sample WatchDeltaChannels execution on `stDelta`. -/
def c9DeltaTrace : List Event :=
  [Event.consumeFGFromLatest "by-dev-rootcoord-delta_0" "by-dev-queryNode-200-1",
   Event.fromDmlCP 200 "by-dev-rootcoord-delta_0_200v0",
   Event.addTSafe "by-dev-rootcoord-delta_0_200v0",
   Event.watchDeltaTSafe "by-dev-rootcoord-dml_0_200v0",
   Event.startFG "by-dev-rootcoord-delta_0_200v0"]


/-- The id every `OnEnqueue` assigns, as a function of the optional base and the
random draw: the base message id when the base is present, else the bounded
random value. -/
def onEnqueueResultSpec (base : Option MsgBase) (r : Nat) : Int :=
  match base with
  | some b => b.MsgID
  | none => randInt63n onEnqueueRandBound r

/-- Request whose base is present but carries timestamp zero. -/
def reqTs0 : AddQueryChannelRequest := ⟨some ⟨5, 0⟩, 1, "q-channel", none⟩

/-- WatchDmChannels request with a nil base. -/
def wDmNilBase : WatchDmChannelsRequest := ⟨none, 100, [], [info0], 0, none, 3⟩

/-- LoadSegments request with a nil base. -/
def wLoadNilBase : LoadSegmentsRequest := ⟨none, [], 0, 300, none⟩

/-- ReleaseCollection request with a nil base. -/
def wRelNilBase : ReleaseCollectionRequest := ⟨none, 100⟩

/-- State produced by a successful streaming `releaseReplica`: release time
recorded, DML flow-graphs and tSafe entries of the collection's vChannels
removed, excluded set and collection entry removed. -/
def releasedStreamingState (s : QueryNodeState) (cid : Int) (ts : Nat)
    (chans : List String) : QueryNodeState :=
  let repA := (s.streaming.updateCollection cid
    (fun c => { c with releaseTime := ts })).removeExcludedSegments cid
  { s with
    streaming := { repA with collections := repA.collections.filter (fun p => !decide (p.1 = cid)) },
    fgDml := s.fgDml.filter (fun ch => !chans.contains ch),
    tSafe := s.tSafe.filter (fun ch => !chans.contains ch) }

/-- State produced by a successful historical `releaseReplica`: release time
recorded, Delta flow-graphs and tSafe entries of the collection's
vDeltaChannels removed, excluded set and collection entry removed. -/
def releasedHistoricalState (s : QueryNodeState) (cid : Int) (ts : Nat)
    (chans : List String) : QueryNodeState :=
  let repA := (s.historical.updateCollection cid
    (fun c => { c with releaseTime := ts })).removeExcludedSegments cid
  { s with
    historical := { repA with collections := repA.collections.filter (fun p => !decide (p.1 = cid)) },
    fgDelta := s.fgDelta.filter (fun ch => !chans.contains ch),
    tSafe := s.tSafe.filter (fun ch => !chans.contains ch) }

/-- Event trace of a successful `releaseReplica` invocation: the release time
is set between lock and unlock, before the flow-graph removal, which precedes
the tSafe, excluded-set and collection removals. -/
def releaseTrace (rt : ReplicaType) (cid : Int) (ts : Nat) (chans : List String)
    (fgEvent : Event) : List Event :=
  [Event.queryLock rt, Event.setReleaseTime cid ts, Event.queryUnlock rt, fgEvent] ++
    chans.map Event.removeTSafe ++
    [Event.removeExcluded rt cid, Event.removeCollection rt cid]

/-! ## Helper lemmas -/

theorem alookup_filter_self {α : Type} (l : List (Int × α)) (k : Int) :
    alookup (l.filter (fun p => !decide (p.1 = k))) k = none := by
  induction l with
  | nil => rfl
  | cons hd tl ih =>
    by_cases h : hd.1 = k
    · simp [List.filter_cons, h, ih]
    · simp [List.filter_cons, h, alookup, ih]

theorem alookup_map_ite {α : Type} (l : List (Int × α)) (k : Int) (f : α → α) :
    alookup (l.map (fun p => if p.1 = k then (p.1, f p.2) else p)) k
      = (alookup l k).map f := by
  induction l with
  | nil => rfl
  | cons hd tl ih =>
    simp only [List.map_cons]
    by_cases h : hd.1 = k
    · rw [if_pos h]
      simp [alookup, h, ih]
    · rw [if_neg h]
      simp [alookup, h, ih]

theorem mem_of_mem_filter_bool {α : Type} {a : α} {l : List α} {p : α → Bool}
    (h : a ∈ l.filter p) : a ∈ l :=
  (List.mem_filter.mp h).1

theorem not_mem_filter_not_contains {a : String} {chs l : List String}
    (ha : a ∈ chs) : a ∉ l.filter (fun ch => !chs.contains ch) := by
  intro hmem
  have h2 := (List.mem_filter.mp hmem).2
  simp at h2
  exact h2 ha

theorem not_mem_filter_not_contains_int {a : Int} {ids l : List Int}
    (ha : a ∈ ids) : a ∉ l.filter (fun x => !ids.contains x) := by
  intro hmem
  have h2 := (List.mem_filter.mp hmem).2
  simp at h2
  exact h2 ha

theorem Replica.addPartition_collections (r : Replica) (cid pid : Int) :
    (r.addPartition cid pid).1.collections = r.collections := by
  unfold Replica.addPartition
  split
  · split <;> rfl
  · rfl

theorem Replica.addPartition_segments (r : Replica) (cid pid : Int) :
    (r.addPartition cid pid).1.segments = r.segments := by
  unfold Replica.addPartition
  split
  · split <;> rfl
  · rfl

theorem Replica.addCollection_lookup_isSome (r : Replica) (cid : Int) (schema : Nat) :
    (alookup (r.addCollection cid schema).collections cid).isSome = true := by
  unfold Replica.addCollection
  split
  · assumption
  · simp [alookup]

theorem Replica.addExcludedSegments_collections (r : Replica) (cid : Int)
    (infos : List SegmentInfo) : (r.addExcludedSegments cid infos).collections = r.collections := by
  unfold Replica.addExcludedSegments
  split <;> rfl

theorem Replica.removeSegment_collections (r : Replica) (sid : Int) :
    (r.removeSegment sid).collections = r.collections := rfl

theorem Replica.removeSegment_mem (r : Replica) (sid x : Int)
    (h : x ∈ (r.removeSegment sid).segments) : x ∈ r.segments ∧ x ≠ sid := by
  unfold Replica.removeSegment at h
  have := List.mem_filter.mp h
  refine ⟨this.1, ?_⟩
  have h2 := this.2
  simp at h2
  exact h2

theorem removeSegmentsState_not_mem (ids : List Int) (s : QueryNodeState) (sid : Int)
    (h : sid ∈ ids) : sid ∉ (removeSegmentsState s ids).streaming.segments := by
  induction ids generalizing s with
  | nil => cases h
  | cons hd tl ih =>
    rcases List.mem_cons.mp h with heq | htl
    · subst heq
      intro hmem
      -- after removing sid, later removals never reintroduce it
      have key : ∀ (rest : List Int) (st : QueryNodeState),
          sid ∉ st.streaming.segments → sid ∉ (removeSegmentsState st rest).streaming.segments := by
        intro rest
        induction rest with
        | nil => intro st hst; exact hst
        | cons h2 t2 ih2 =>
          intro st hst
          apply ih2
          intro hx
          exact hst (Replica.removeSegment_mem st.streaming h2 sid hx).1
      have hfirst : sid ∉ ({ s with streaming := s.streaming.removeSegment sid } :
          QueryNodeState).streaming.segments := by
        intro hx
        exact (Replica.removeSegment_mem s.streaming sid sid hx).2 rfl
      exact key tl _ hfirst hmem
    · exact ih _ htl

theorem removeSegmentsState_streaming_collections (ids : List Int) (s : QueryNodeState) :
    (removeSegmentsState s ids).streaming.collections = s.streaming.collections := by
  induction ids generalizing s with
  | nil => rfl
  | cons hd tl ih => simpa [removeSegmentsState] using ih _

theorem removeSegmentsState_historical (ids : List Int) (s : QueryNodeState) :
    (removeSegmentsState s ids).historical = s.historical := by
  induction ids generalizing s with
  | nil => rfl
  | cons hd tl ih => simpa [removeSegmentsState] using ih _

theorem removeSegmentsState_fgDml (ids : List Int) (s : QueryNodeState) :
    (removeSegmentsState s ids).fgDml = s.fgDml := by
  induction ids generalizing s with
  | nil => rfl
  | cons hd tl ih => simpa [removeSegmentsState] using ih _

theorem addPartitionsDiscardSH_streaming_collections (pids : List Int)
    (s : QueryNodeState) (cid : Int) :
    (addPartitionsDiscardSH s cid pids).streaming.collections = s.streaming.collections := by
  induction pids generalizing s with
  | nil => rfl
  | cons hd tl ih =>
    simp only [addPartitionsDiscardSH]
    rw [ih]
    simp [Replica.addPartition_collections]

theorem addPartitionsDiscardSH_historical_collections (pids : List Int)
    (s : QueryNodeState) (cid : Int) :
    (addPartitionsDiscardSH s cid pids).historical.collections = s.historical.collections := by
  induction pids generalizing s with
  | nil => rfl
  | cons hd tl ih =>
    simp only [addPartitionsDiscardSH]
    rw [ih]
    simp [Replica.addPartition_collections]

theorem addPartitionsDiscardHS_streaming_collections (pids : List Int)
    (s : QueryNodeState) (cid : Int) :
    (addPartitionsDiscardHS s cid pids).streaming.collections = s.streaming.collections := by
  induction pids generalizing s with
  | nil => rfl
  | cons hd tl ih =>
    simp only [addPartitionsDiscardHS]
    rw [ih]
    simp [Replica.addPartition_collections]

theorem addPartitionsDiscardHS_historical_collections (pids : List Int)
    (s : QueryNodeState) (cid : Int) :
    (addPartitionsDiscardHS s cid pids).historical.collections = s.historical.collections := by
  induction pids generalizing s with
  | nil => rfl
  | cons hd tl ih =>
    simp only [addPartitionsDiscardHS]
    rw [ih]
    simp [Replica.addPartition_collections]

/-- C1: in every WatchDmChannels execution in which a flow-graph consume or
seek call fails, every flow-graph the task created is closed and removed from
the flow-graph service, every growing segment the task loaded is removed from
the streaming replica, and the collection the task added remains present in
both replicas. -/
theorem C1_watchDm_rollback (env : Env) (w : WatchDmChannelsRequest) (s : QueryNodeState)
    (base : MsgBase) (dropped : List SegmentInfo) (e : QNError)
    (hlen : (mkVPChannels w.Infos).length = (dmVChannels w).length)
    (hb : w.Base = some base)
    (hload : env.loadGrowingOk = true)
    (hdrop : droppedCheckPointInfos w.Infos (dmSeekPositions w) = some dropped)
    (hfg : env.addDmlFGOk = true)
    (hfail : (dmAttachResult env w).2 = some e) :
    ∃ sr tr, watchDmChannelsExecute env w s = some (sr, tr, some e) ∧
      (∀ ch ∈ dmVChannels w, ch ∉ sr.fgDml ∧ Event.closeFG ch ∈ tr) ∧
      (∀ sid ∈ unFlushedSegmentIDsOf w, sid ∉ sr.streaming.segments) ∧
      (alookup sr.streaming.collections w.CollectionID).isSome = true ∧
      (alookup sr.historical.collections w.CollectionID).isSome = true := by
  simp only [watchDmChannelsExecute]
  rw [if_pos hlen, hb]
  simp only [loadSegmentModel, hload, if_true]
  rw [hdrop]
  simp only [hfg, if_true]
  rw [hfail]
  refine ⟨_, _, rfl, ?_, ?_, ?_, ?_⟩
  · intro ch hch
    constructor
    · rw [removeSegmentsState_fgDml]
      exact not_mem_filter_not_contains hch
    · simp only [List.append_assoc, List.mem_append]
      right
      left
      exact List.mem_map_of_mem Event.closeFG hch
  · intro sid hsid
    exact removeSegmentsState_not_mem _ _ sid hsid
  · rw [removeSegmentsState_streaming_collections]
    simp only [Replica.addExcludedSegments_collections]
    rw [addPartitionsDiscardHS_streaming_collections, addPartitionsDiscardSH_streaming_collections]
    exact Replica.addCollection_lookup_isSome s.streaming w.CollectionID w.Schema
  · rw [removeSegmentsState_historical]
    rw [addPartitionsDiscardHS_historical_collections, addPartitionsDiscardSH_historical_collections]
    exact Replica.addCollection_lookup_isSome s.historical w.CollectionID w.Schema

/-- Witness for C1: the rollback claim at the spec's scenario 2 (seek failure on
the sample request). -/
theorem C1_watchDm_rollback_witness :
    ((mkVPChannels wDm0.Infos).length = (dmVChannels wDm0).length ∧
     wDm0.Base = some ⟨11, 500⟩ ∧
     envSeekFail.loadGrowingOk = true ∧
     droppedCheckPointInfos wDm0.Infos (dmSeekPositions wDm0) = some [] ∧
     envSeekFail.addDmlFGOk = true ∧
     (dmAttachResult envSeekFail wDm0).2
        = some (QNError.errSeekFailed "by-dev-rootcoord-dml_0_100v0")) ∧
    (∃ sr tr, watchDmChannelsExecute envSeekFail wDm0 QueryNodeState.empty
        = some (sr, tr, some (QNError.errSeekFailed "by-dev-rootcoord-dml_0_100v0")) ∧
      (∀ ch ∈ dmVChannels wDm0, ch ∉ sr.fgDml ∧ Event.closeFG ch ∈ tr) ∧
      (∀ sid ∈ unFlushedSegmentIDsOf wDm0, sid ∉ sr.streaming.segments) ∧
      (alookup sr.streaming.collections wDm0.CollectionID).isSome = true ∧
      (alookup sr.historical.collections wDm0.CollectionID).isSome = true) :=
  ⟨⟨rfl, rfl, rfl, rfl, rfl, rfl⟩,
   C1_watchDm_rollback envSeekFail wDm0 QueryNodeState.empty ⟨11, 500⟩ [] _
     rfl rfl rfl rfl rfl rfl⟩

/-- C3 (code bug in the source): the dropped-segment exclusion step is meant to
apply the flushed-segment rule, which skips a nil `DmlPosition` and never
fails; the source checks the segment pointer for nil but dereferences
`DmlPosition` unconditionally (line 359), so a present dropped segment with a
nil position panics as soon as one seek position exists. At the concrete
failing input the source step (and hence the whole Execute) is undefined,
while the rule the claim states succeeds and excludes nothing. -/
theorem C3_dropped_nil_position_panics :
    droppedCheckPointInfos wC3.Infos c3Seeks = none ∧
    droppedCheckPointInfosSpec wC3.Infos c3Seeks = [] ∧
    watchDmChannelsExecute Env.allOk wC3 QueryNodeState.empty = none :=
  ⟨rfl, rfl, rfl⟩

/-- C5: when the request load type is unknown the effective load type used by
Execute is LoadPartition exactly when the supplied partition-ids list is
non-empty and LoadCollection otherwise; a known load type is used unchanged. -/
theorem C5_effective_load_type (w : WatchDmChannelsRequest) :
    (w.GetLoadType = LoadType.UnKnownType →
       ((effectiveLoadType w = LoadType.LoadPartition ↔ w.PartitionIDs ≠ []) ∧
        (w.PartitionIDs = [] → effectiveLoadType w = LoadType.LoadCollection))) ∧
    (w.GetLoadType ≠ LoadType.UnKnownType → effectiveLoadType w = w.GetLoadType) := by
  unfold effectiveLoadType
  constructor
  · intro hu
    rw [if_pos hu]
    by_cases hp : w.PartitionIDs = []
    · simp [hp]
    · have hne : w.PartitionIDs.length ≠ 0 := by
        simpa [List.length_eq_zero] using hp
      simp [hne, hp]
  · intro hu
    rw [if_neg hu]

/-- Witness for C5: the sample request has an unknown load type and no
partition ids, so the effective load type is LoadCollection. -/
theorem C5_effective_load_type_witness :
    wDm0.GetLoadType = LoadType.UnKnownType ∧
    ((effectiveLoadType wDm0 = LoadType.LoadPartition ↔ wDm0.PartitionIDs ≠ []) ∧
     (wDm0.PartitionIDs = [] → effectiveLoadType wDm0 = LoadType.LoadCollection)) :=
  ⟨rfl, (C5_effective_load_type wDm0).1 rfl⟩

/-- Counterexample to C7 as stated: with an absent request and the random draw
0, `rand.Int63n(100000000000)` yields 0, so the assigned id is zero — the
claimed "nonzero" random value is not guaranteed by the source. -/
theorem C7_counterexample :
    (addQueryChannelTask.OnEnqueue none 0).1 = 0 ∧
    ¬ (addQueryChannelTask.OnEnqueue none 0).1 ≠ 0 :=
  ⟨rfl, fun h => h rfl⟩

/-- C7 (amended): for every task variant, OnEnqueue sets the task id to
Base.MsgID when the request and its base are present, and otherwise to a
random value drawn from [0, 100000000000) — a value that fits in 63 bits but
may be zero — and OnEnqueue always returns nil. -/
theorem C7_onEnqueue_amended (r : Nat) (qa : AddQueryChannelRequest)
    (qw : WatchDmChannelsRequest) (qd : WatchDeltaChannelsRequest)
    (ql : LoadSegmentsRequest) (qc : ReleaseCollectionRequest)
    (qp : ReleasePartitionsRequest) :
    addQueryChannelTask.OnEnqueue (some qa) r = (onEnqueueResultSpec qa.Base r, none) ∧
    addQueryChannelTask.OnEnqueue none r = (randInt63n onEnqueueRandBound r, none) ∧
    watchDmChannelsTask.OnEnqueue (some qw) r = (onEnqueueResultSpec qw.Base r, none) ∧
    watchDmChannelsTask.OnEnqueue none r = (randInt63n onEnqueueRandBound r, none) ∧
    watchDeltaChannelsTask.OnEnqueue (some qd) r = (onEnqueueResultSpec qd.Base r, none) ∧
    watchDeltaChannelsTask.OnEnqueue none r = (randInt63n onEnqueueRandBound r, none) ∧
    loadSegmentsTask.OnEnqueue (some ql) r = (onEnqueueResultSpec ql.Base r, none) ∧
    loadSegmentsTask.OnEnqueue none r = (randInt63n onEnqueueRandBound r, none) ∧
    releaseCollectionTask.OnEnqueue (some qc) r = (onEnqueueResultSpec qc.Base r, none) ∧
    releaseCollectionTask.OnEnqueue none r = (randInt63n onEnqueueRandBound r, none) ∧
    releasePartitionsTask.OnEnqueue (some qp) r = (onEnqueueResultSpec qp.Base r, none) ∧
    releasePartitionsTask.OnEnqueue none r = (randInt63n onEnqueueRandBound r, none) ∧
    0 ≤ randInt63n onEnqueueRandBound r ∧
    randInt63n onEnqueueRandBound r < onEnqueueRandBound ∧
    onEnqueueRandBound < 2 ^ 63 := by
  refine ⟨?_, rfl, ?_, rfl, ?_, rfl, ?_, rfl, ?_, rfl, ?_, rfl, ?_, ?_, ?_⟩
  · cases h : qa.Base <;> simp [addQueryChannelTask.OnEnqueue, onEnqueueResultSpec, h]
  · cases h : qw.Base <;> simp [watchDmChannelsTask.OnEnqueue, onEnqueueResultSpec, h]
  · cases h : qd.Base <;> simp [watchDeltaChannelsTask.OnEnqueue, onEnqueueResultSpec, h]
  · cases h : ql.Base <;> simp [loadSegmentsTask.OnEnqueue, onEnqueueResultSpec, h]
  · cases h : qc.Base <;> simp [releaseCollectionTask.OnEnqueue, onEnqueueResultSpec, h]
  · cases h : qp.Base <;> simp [releasePartitionsTask.OnEnqueue, onEnqueueResultSpec, h]
  · exact Int.emod_nonneg _ (by decide)
  · exact Int.emod_lt_of_pos _ (by decide)
  · decide

/-- Witness for C7 (amended): the amended statement evaluated at the sample
requests and the random draw 42. -/
theorem C7_onEnqueue_amended_witness :
    addQueryChannelTask.OnEnqueue (some reqTs0) 42 = (onEnqueueResultSpec reqTs0.Base 42, none) ∧
    watchDmChannelsTask.OnEnqueue (some wDm0) 42 = (onEnqueueResultSpec wDm0.Base 42, none) ∧
    0 ≤ randInt63n onEnqueueRandBound 42 :=
  ⟨(C7_onEnqueue_amended 42 reqTs0 wDm0 wDelta0 wLoad0 wRel0 wRelPart0).1,
   (C7_onEnqueue_amended 42 reqTs0 wDm0 wDelta0 wLoad0 wRel0 wRelPart0).2.2.1,
   (C7_onEnqueue_amended 42 reqTs0 wDm0 wDelta0 wLoad0 wRel0 wRelPart0).2.2.2.2.2.2.2.2.2.2.2.2.1⟩

/-- Counterexample to C8 as stated: a request whose base is present with
timestamp zero makes Timestamp return 0 although Base is not nil, refuting the
"returns 0 only if Base is nil" direction. -/
theorem C8_counterexample :
    addQueryChannelTask.Timestamp reqTs0 = 0 ∧ reqTs0.Base ≠ none :=
  ⟨rfl, by simp [reqTs0]⟩

/-- C8 (amended): for every task variant, Timestamp returns 0 when the
request's base is nil, and returns Base.Timestamp when the base is present
(which is 0 exactly when that timestamp is 0). -/
theorem C8_timestamp_amended (qa : AddQueryChannelRequest)
    (qw : WatchDmChannelsRequest) (qd : WatchDeltaChannelsRequest)
    (ql : LoadSegmentsRequest) (qc : ReleaseCollectionRequest)
    (qp : ReleasePartitionsRequest) :
    ((qa.Base = none → addQueryChannelTask.Timestamp qa = 0) ∧
     (∀ b, qa.Base = some b → addQueryChannelTask.Timestamp qa = b.Timestamp)) ∧
    ((qw.Base = none → watchDmChannelsTask.Timestamp qw = 0) ∧
     (∀ b, qw.Base = some b → watchDmChannelsTask.Timestamp qw = b.Timestamp)) ∧
    ((qd.Base = none → watchDeltaChannelsTask.Timestamp qd = 0) ∧
     (∀ b, qd.Base = some b → watchDeltaChannelsTask.Timestamp qd = b.Timestamp)) ∧
    ((ql.Base = none → loadSegmentsTask.Timestamp ql = 0) ∧
     (∀ b, ql.Base = some b → loadSegmentsTask.Timestamp ql = b.Timestamp)) ∧
    ((qc.Base = none → releaseCollectionTask.Timestamp qc = 0) ∧
     (∀ b, qc.Base = some b → releaseCollectionTask.Timestamp qc = b.Timestamp)) ∧
    ((qp.Base = none → releasePartitionsTask.Timestamp qp = 0) ∧
     (∀ b, qp.Base = some b → releasePartitionsTask.Timestamp qp = b.Timestamp)) := by
  refine ⟨⟨?_, ?_⟩, ⟨?_, ?_⟩, ⟨?_, ?_⟩, ⟨?_, ?_⟩, ⟨?_, ?_⟩, ⟨?_, ?_⟩⟩ <;>
    first
      | (intro h; simp [addQueryChannelTask.Timestamp, watchDmChannelsTask.Timestamp,
          watchDeltaChannelsTask.Timestamp, loadSegmentsTask.Timestamp,
          releaseCollectionTask.Timestamp, releasePartitionsTask.Timestamp, h])
      | (intro b h; simp [addQueryChannelTask.Timestamp, watchDmChannelsTask.Timestamp,
          watchDeltaChannelsTask.Timestamp, loadSegmentsTask.Timestamp,
          releaseCollectionTask.Timestamp, releasePartitionsTask.Timestamp, h])

/-- Witness for C8 (amended): evaluated at the sample requests; the present
base of `wDm0` yields its timestamp 500. -/
theorem C8_timestamp_amended_witness :
    wDm0.Base = some ⟨11, 500⟩ ∧ watchDmChannelsTask.Timestamp wDm0 = 500 :=
  ⟨rfl, ((C8_timestamp_amended reqTs0 wDm0 wDelta0 wLoad0 wRel0 wRelPart0).2.1).2 ⟨11, 500⟩ rfl⟩

/-- Counterexample to C4 as stated: a WatchDeltaChannels request with a
duplicated virtual channel name whose collection is absent from both replicas
fails with the illegal-channel-length error (source line 506), not with a
cannot-find-collection error — the duplicate check precedes the collection
check. -/
theorem C4_counterexample :
    watchDeltaChannelsExecute Env.allOk wDeltaDup QueryNodeState.empty
      = (QueryNodeState.empty, [], some (QNError.errIllegalChannelLength 200)) ∧
    QueryNodeState.empty.historical.hasCollectionB 200 = false ∧
    QNError.errIllegalChannelLength 200 ≠ QNError.errCannotFindCollection 200 :=
  ⟨rfl, rfl, by simp⟩

/-- C4 (amended): for every WatchDeltaChannels request with distinct channel
names whose collection is absent from the historical replica or from the
streaming replica, Execute fails with the cannot-find-collection error and
makes no change — the node state is returned untouched and no event is
emitted, so the replicas, the flow-graph service, the tSafe replica and the
query-shard service are all unchanged. -/
theorem C4_delta_missing_collection (env : Env) (w : WatchDeltaChannelsRequest)
    (s : QueryNodeState)
    (hlen : (mkVPChannels w.Infos).length = (deltaVChannels w).length)
    (hmiss : s.historical.hasCollectionB w.CollectionID = false ∨
             s.streaming.hasCollectionB w.CollectionID = false) :
    watchDeltaChannelsExecute env w s
      = (s, [], some (QNError.errCannotFindCollection w.CollectionID)) := by
  unfold watchDeltaChannelsExecute
  rw [if_pos hlen]
  rcases hmiss with h | h
  · simp [h]
  · by_cases hh : s.historical.hasCollectionB w.CollectionID
    · simp [hh, h]
    · simp [hh]

/-- Witness for C4 (amended): the distinct-channel sample request against the
empty node fails with the cannot-find-collection error and changes nothing. -/
theorem C4_delta_missing_collection_witness :
    ((mkVPChannels wDelta0.Infos).length = (deltaVChannels wDelta0).length ∧
     QueryNodeState.empty.historical.hasCollectionB 200 = false) ∧
    watchDeltaChannelsExecute Env.allOk wDelta0 QueryNodeState.empty
      = (QueryNodeState.empty, [], some (QNError.errCannotFindCollection 200)) :=
  ⟨⟨rfl, rfl⟩, C4_delta_missing_collection Env.allOk wDelta0 QueryNodeState.empty rfl (Or.inl rfl)⟩

theorem Replica.removePartition_has_false (r : Replica) (pid q : Int)
    (h : r.hasPartitionB pid = false) : (r.removePartition q).hasPartitionB pid = false := by
  unfold Replica.hasPartitionB Replica.removePartition at *
  rw [Bool.eq_false_iff] at h ⊢
  intro hx
  apply h
  rcases List.any_eq_true.mp hx with ⟨x, hxmem, hxp⟩
  exact List.any_eq_true.mpr ⟨x, mem_of_mem_filter_bool hxmem, hxp⟩

theorem releaseOnePartition_hist_mono (env : Env) (s : QueryNodeState) (q pid : Int)
    (h : s.historical.hasPartitionB pid = false) :
    ((releaseOnePartition env s q).1).historical.hasPartitionB pid = false := by
  have hrm := Replica.removePartition_has_false s.historical pid q h
  unfold releaseOnePartition
  by_cases h1 : s.historical.hasPartitionB q = true <;>
    by_cases h2 : env.removePartitionOk q = true <;>
      by_cases h3 : s.streaming.hasPartitionB q = true <;>
        simp_all

theorem releaseOnePartition_stream_mono (env : Env) (s : QueryNodeState) (q pid : Int)
    (h : s.streaming.hasPartitionB pid = false) :
    ((releaseOnePartition env s q).1).streaming.hasPartitionB pid = false := by
  have hrm := Replica.removePartition_has_false s.streaming pid q h
  unfold releaseOnePartition
  by_cases h1 : s.historical.hasPartitionB q = true <;>
    by_cases h2 : env.removePartitionOk q = true <;>
      by_cases h3 : s.streaming.hasPartitionB q = true <;>
        simp_all

theorem releaseOnePartition_no_hist_event (env : Env) (s : QueryNodeState) (q pid : Int)
    (h : s.historical.hasPartitionB pid = false) :
    Event.removePartition ReplicaType.replicaHistorical pid ∉ (releaseOnePartition env s q).2 := by
  by_cases hqp : q = pid
  · subst hqp
    unfold releaseOnePartition
    by_cases h2 : env.removePartitionOk q = true <;>
      by_cases h3 : s.streaming.hasPartitionB q = true <;>
        simp_all
  · unfold releaseOnePartition
    by_cases h1 : s.historical.hasPartitionB q = true <;>
      by_cases h2 : env.removePartitionOk q = true <;>
        by_cases h3 : s.streaming.hasPartitionB q = true <;>
          simp_all [Ne.symm hqp]

theorem releaseOnePartition_no_stream_event (env : Env) (s : QueryNodeState) (q pid : Int)
    (h : s.streaming.hasPartitionB pid = false) :
    Event.removePartition ReplicaType.replicaStreaming pid ∉ (releaseOnePartition env s q).2 := by
  by_cases hqp : q = pid
  · subst hqp
    unfold releaseOnePartition
    by_cases h1 : s.historical.hasPartitionB q = true <;>
      by_cases h2 : env.removePartitionOk q = true <;>
        simp_all
  · unfold releaseOnePartition
    by_cases h1 : s.historical.hasPartitionB q = true <;>
      by_cases h2 : env.removePartitionOk q = true <;>
        by_cases h3 : s.streaming.hasPartitionB q = true <;>
          simp_all [Ne.symm hqp]

theorem releasePartitionsLoop_no_hist_event (env : Env) (pids : List Int)
    (s : QueryNodeState) (pid : Int) (h : s.historical.hasPartitionB pid = false) :
    Event.removePartition ReplicaType.replicaHistorical pid
      ∉ (releasePartitionsLoop env s pids).2 := by
  induction pids generalizing s with
  | nil => simp [releasePartitionsLoop]
  | cons q rest ih =>
    simp only [releasePartitionsLoop, List.mem_append]
    push_neg
    exact ⟨releaseOnePartition_no_hist_event env s q pid h,
           ih _ (releaseOnePartition_hist_mono env s q pid h)⟩

theorem releasePartitionsLoop_no_stream_event (env : Env) (pids : List Int)
    (s : QueryNodeState) (pid : Int) (h : s.streaming.hasPartitionB pid = false) :
    Event.removePartition ReplicaType.replicaStreaming pid
      ∉ (releasePartitionsLoop env s pids).2 := by
  induction pids generalizing s with
  | nil => simp [releasePartitionsLoop]
  | cons q rest ih =>
    simp only [releasePartitionsLoop, List.mem_append]
    push_neg
    exact ⟨releaseOnePartition_no_stream_event env s q pid h,
           ih _ (releaseOnePartition_stream_mono env s q pid h)⟩

/-- C6: ReleasePartitions fails when the collection is absent from the
historical or the streaming replica (leaving the state untouched); otherwise it
succeeds for every partition-ids list and every per-partition removal outcome —
a partition id absent from a replica is skipped (no removal is attempted on
that replica) and a removal error never aborts the task. -/
theorem C6_release_partitions (env : Env) (w : ReleasePartitionsRequest) (s : QueryNodeState) :
    ((alookup s.historical.collections w.CollectionID = none ∨
      alookup s.streaming.collections w.CollectionID = none) →
       releasePartitionsExecute env w s
         = (s, [], some (QNError.errReleasePartitionsFailed w.CollectionID))) ∧
    ((alookup s.historical.collections w.CollectionID).isSome = true →
     (alookup s.streaming.collections w.CollectionID).isSome = true →
       ((releasePartitionsExecute env w s).2.2 = none ∧
        (∀ pid, s.historical.hasPartitionB pid = false →
           Event.removePartition ReplicaType.replicaHistorical pid
             ∉ (releasePartitionsExecute env w s).2.1) ∧
        (∀ pid, s.streaming.hasPartitionB pid = false →
           Event.removePartition ReplicaType.replicaStreaming pid
             ∉ (releasePartitionsExecute env w s).2.1))) := by
  constructor
  · intro hmiss
    unfold releasePartitionsExecute
    rcases hmiss with h | h
    · rw [h]
    · cases hh : alookup s.historical.collections w.CollectionID <;> simp [h]
  · intro h1 h2
    obtain ⟨ch, hch⟩ := Option.isSome_iff_exists.mp h1
    obtain ⟨cs, hcs⟩ := Option.isSome_iff_exists.mp h2
    unfold releasePartitionsExecute
    rw [hch, hcs]
    refine ⟨rfl, ?_, ?_⟩
    · intro pid hp
      exact releasePartitionsLoop_no_hist_event env w.PartitionIDs s pid hp
    · intro pid hp
      exact releasePartitionsLoop_no_stream_event env w.PartitionIDs s pid hp

/-- Witness for C6: releasing partitions 17 and 23 of collection 100 (present
in both replicas; partition 23 absent everywhere) succeeds and attempts no
removal of partition 23. -/
theorem C6_release_partitions_witness :
    ((alookup stRelease.historical.collections 100).isSome = true ∧
     (alookup stRelease.streaming.collections 100).isSome = true ∧
     stRelease.historical.hasPartitionB 23 = false) ∧
    ((releasePartitionsExecute Env.allOk wRelPart0 stRelease).2.2 = none ∧
     Event.removePartition ReplicaType.replicaHistorical 23
       ∉ (releasePartitionsExecute Env.allOk wRelPart0 stRelease).2.1) :=
  ⟨⟨rfl, rfl, rfl⟩,
   ⟨((C6_release_partitions Env.allOk wRelPart0 stRelease).2 rfl rfl).1,
    ((C6_release_partitions Env.allOk wRelPart0 stRelease).2 rfl rfl).2.1 23 rfl⟩⟩

/-- C10: watchDmChannelsTask.Execute, loadSegmentsTask.Execute and
releaseCollectionTask's releaseReplica dereference the request base
unconditionally (to copy MsgID into the inner load request, to log MsgID, and
to set the collection's release-time), so the paths reaching those
dereferences are undefined for a nil base — Execute of these three tasks is
total only under the precondition that the base is present — while Timestamp
and OnEnqueue of the same tasks tolerate a nil base. -/
theorem C10_nil_base_undefined (env : Env) (w : WatchDmChannelsRequest)
    (l : LoadSegmentsRequest) (wr : ReleaseCollectionRequest) (s : QueryNodeState)
    (rt : ReplicaType) (col : Collection) (r : Nat) :
    (w.Base = none → (mkVPChannels w.Infos).length = (dmVChannels w).length →
       watchDmChannelsExecute env w s = none) ∧
    (l.Base = none → loadSegmentsExecute env l s = none) ∧
    (wr.Base = none → alookup (getReplicaOf s rt).collections wr.CollectionID = some col →
       releaseReplicaStep wr s rt = none) ∧
    (w.Base = none → watchDmChannelsTask.Timestamp w = 0 ∧
       watchDmChannelsTask.OnEnqueue (some w) r = (randInt63n onEnqueueRandBound r, none)) ∧
    (l.Base = none → loadSegmentsTask.Timestamp l = 0 ∧
       loadSegmentsTask.OnEnqueue (some l) r = (randInt63n onEnqueueRandBound r, none)) ∧
    (wr.Base = none → releaseCollectionTask.Timestamp wr = 0 ∧
       releaseCollectionTask.OnEnqueue (some wr) r = (randInt63n onEnqueueRandBound r, none)) := by
  refine ⟨?_, ?_, ?_, ?_, ?_, ?_⟩
  · intro hb hlen
    unfold watchDmChannelsExecute
    rw [if_pos hlen, hb]
  · intro hb
    unfold loadSegmentsExecute
    rw [hb]
  · intro hb hcol
    unfold releaseReplicaStep
    rw [hcol, hb]
  · intro hb
    exact ⟨by simp [watchDmChannelsTask.Timestamp, hb],
           by simp [watchDmChannelsTask.OnEnqueue, hb]⟩
  · intro hb
    exact ⟨by simp [loadSegmentsTask.Timestamp, hb],
           by simp [loadSegmentsTask.OnEnqueue, hb]⟩
  · intro hb
    exact ⟨by simp [releaseCollectionTask.Timestamp, hb],
           by simp [releaseCollectionTask.OnEnqueue, hb]⟩

/-- Witness for C10: at concrete nil-base requests the three Execute paths are
undefined while Timestamp and OnEnqueue still return values. -/
theorem C10_nil_base_undefined_witness :
    (wDmNilBase.Base = none ∧
     (mkVPChannels wDmNilBase.Infos).length = (dmVChannels wDmNilBase).length ∧
     wLoadNilBase.Base = none ∧ wRelNilBase.Base = none ∧
     alookup (getReplicaOf stRelease ReplicaType.replicaStreaming).collections 100 = some col100s) ∧
    (watchDmChannelsExecute Env.allOk wDmNilBase QueryNodeState.empty = none ∧
     loadSegmentsExecute Env.allOk wLoadNilBase QueryNodeState.empty = none ∧
     releaseReplicaStep wRelNilBase stRelease ReplicaType.replicaStreaming = none ∧
     watchDmChannelsTask.Timestamp wDmNilBase = 0 ∧
     loadSegmentsTask.Timestamp wLoadNilBase = 0 ∧
     releaseCollectionTask.Timestamp wRelNilBase = 0) :=
  ⟨⟨rfl, rfl, rfl, rfl, rfl⟩,
   ⟨(C10_nil_base_undefined Env.allOk wDmNilBase wLoadNilBase wRelNilBase QueryNodeState.empty
       ReplicaType.replicaStreaming col100s 0).1 rfl rfl,
    (C10_nil_base_undefined Env.allOk wDmNilBase wLoadNilBase wRelNilBase QueryNodeState.empty
       ReplicaType.replicaStreaming col100s 0).2.1 rfl,
    (C10_nil_base_undefined Env.allOk wDmNilBase wLoadNilBase wRelNilBase stRelease
       ReplicaType.replicaStreaming col100s 0).2.2.1 rfl rfl,
    ((C10_nil_base_undefined Env.allOk wDmNilBase wLoadNilBase wRelNilBase QueryNodeState.empty
       ReplicaType.replicaStreaming col100s 0).2.2.2.1 rfl).1,
    ((C10_nil_base_undefined Env.allOk wDmNilBase wLoadNilBase wRelNilBase QueryNodeState.empty
       ReplicaType.replicaStreaming col100s 0).2.2.2.2.1 rfl).1,
    ((C10_nil_base_undefined Env.allOk wDmNilBase wLoadNilBase wRelNilBase QueryNodeState.empty
       ReplicaType.replicaStreaming col100s 0).2.2.2.2.2 rfl).1⟩⟩

theorem Replica.removeExcludedSegments_collections (r : Replica) (cid : Int) :
    (r.removeExcludedSegments cid).collections = r.collections := rfl

theorem Replica.updateCollection_alookup_self (r : Replica) (cid : Int) (f : Collection → Collection) :
    alookup (r.updateCollection cid f).collections cid = (alookup r.collections cid).map f :=
  alookup_map_ite r.collections cid f

theorem Replica.removeCollection_of_lookup (r : Replica) (cid : Int) (col : Collection)
    (h : alookup r.collections cid = some col) :
    r.removeCollection cid
      = ({ r with collections := r.collections.filter (fun p => !decide (p.1 = cid)) }, none) := by
  unfold Replica.removeCollection
  rw [h]

theorem releaseReplicaStep_streaming_eq (w : ReleaseCollectionRequest) (s : QueryNodeState)
    (col : Collection) (base : MsgBase)
    (hcol : alookup s.streaming.collections w.CollectionID = some col)
    (hb : w.Base = some base) :
    releaseReplicaStep w s ReplicaType.replicaStreaming =
      some (releasedStreamingState s w.CollectionID base.Timestamp col.vChannels,
            releaseTrace ReplicaType.replicaStreaming w.CollectionID base.Timestamp
              col.vChannels (Event.removeDmlFGs col.vChannels), none) := by
  have h2 : alookup (((s.streaming.updateCollection w.CollectionID
      (fun c => { c with releaseTime := base.Timestamp })).removeExcludedSegments
        w.CollectionID).collections) w.CollectionID
      = some { col with releaseTime := base.Timestamp } := by
    rw [Replica.removeExcludedSegments_collections, Replica.updateCollection_alookup_self, hcol]
    rfl
  unfold releaseReplicaStep
  simp only [getReplicaOf]
  rw [hcol, hb]
  simp only [setReplicaOf, getReplicaOf]
  simp only [eq_self_iff_true, if_true]
  rw [Replica.removeCollection_of_lookup _ _ _ h2]
  simp [releasedStreamingState, releaseTrace]

theorem releaseReplicaStep_historical_eq (w : ReleaseCollectionRequest) (s : QueryNodeState)
    (col : Collection) (base : MsgBase)
    (hcol : alookup s.historical.collections w.CollectionID = some col)
    (hb : w.Base = some base) :
    releaseReplicaStep w s ReplicaType.replicaHistorical =
      some (releasedHistoricalState s w.CollectionID base.Timestamp col.vDeltaChannels,
            releaseTrace ReplicaType.replicaHistorical w.CollectionID base.Timestamp
              col.vDeltaChannels (Event.removeDeltaFGs col.vDeltaChannels), none) := by
  have h2 : alookup (((s.historical.updateCollection w.CollectionID
      (fun c => { c with releaseTime := base.Timestamp })).removeExcludedSegments
        w.CollectionID).collections) w.CollectionID
      = some { col with releaseTime := base.Timestamp } := by
    rw [Replica.removeExcludedSegments_collections, Replica.updateCollection_alookup_self, hcol]
    rfl
  unfold releaseReplicaStep
  simp only [getReplicaOf]
  rw [hcol, hb]
  simp only [setReplicaOf, getReplicaOf]
  simp only [reduceCtorEq, if_false]
  rw [Replica.removeCollection_of_lookup _ _ _ h2]
  simp [releasedHistoricalState, releaseTrace]

/-- C2: after every successful ReleaseCollection execution on a collection
present in both replicas, the collection is removed from both replicas, the
DML flow-graphs of the (streaming) collection's vChannels and the Delta
flow-graphs of the (historical) collection's vDeltaChannels are removed, the
tSafe entries of those channels are removed, each replica's excluded-segment
set for the collection is removed, and the query-shard service holds no shard
of the collection; the trace shows that in each replica the release time was
set to the request's base timestamp between query-lock and query-unlock,
before the flow-graph removal. -/
theorem C2_release_collection (w : ReleaseCollectionRequest) (s : QueryNodeState)
    (colS colH : Collection) (base : MsgBase)
    (hb : w.Base = some base)
    (hs : alookup s.streaming.collections w.CollectionID = some colS)
    (hh : alookup s.historical.collections w.CollectionID = some colH) :
    ∃ sr, releaseCollectionExecute w s =
        some (sr,
          releaseTrace ReplicaType.replicaStreaming w.CollectionID base.Timestamp
            colS.vChannels (Event.removeDmlFGs colS.vChannels) ++
          releaseTrace ReplicaType.replicaHistorical w.CollectionID base.Timestamp
            colH.vDeltaChannels (Event.removeDeltaFGs colH.vDeltaChannels) ++
          [Event.releaseShards w.CollectionID], none) ∧
      alookup sr.streaming.collections w.CollectionID = none ∧
      alookup sr.historical.collections w.CollectionID = none ∧
      (∀ ch ∈ colS.vChannels, ch ∉ sr.fgDml ∧ ch ∉ sr.tSafe) ∧
      (∀ ch ∈ colH.vDeltaChannels, ch ∉ sr.fgDelta ∧ ch ∉ sr.tSafe) ∧
      alookup sr.streaming.excludedSegments w.CollectionID = none ∧
      alookup sr.historical.excludedSegments w.CollectionID = none ∧
      (∀ q ∈ sr.queryShards, q.collectionID ≠ w.CollectionID) := by
  have hstep1 := releaseReplicaStep_streaming_eq w s colS base hs hb
  have hh1 : alookup (releasedStreamingState s w.CollectionID base.Timestamp
      colS.vChannels).historical.collections w.CollectionID = some colH := hh
  have hstep2 := releaseReplicaStep_historical_eq w
    (releasedStreamingState s w.CollectionID base.Timestamp colS.vChannels) colH base hh1 hb
  unfold releaseCollectionExecute
  rw [hstep1]
  dsimp only
  rw [hstep2]
  dsimp only
  refine ⟨_, rfl, ?_, ?_, ?_, ?_, ?_, ?_, ?_⟩
  · dsimp only [releasedHistoricalState, releasedStreamingState]
    exact alookup_filter_self _ _
  · dsimp only [releasedHistoricalState, releasedStreamingState]
    exact alookup_filter_self _ _
  · intro ch hch
    dsimp only [releasedHistoricalState, releasedStreamingState]
    exact ⟨not_mem_filter_not_contains hch,
      fun hmem => not_mem_filter_not_contains hch (mem_of_mem_filter_bool hmem)⟩
  · intro ch hch
    dsimp only [releasedHistoricalState, releasedStreamingState]
    exact ⟨not_mem_filter_not_contains hch, not_mem_filter_not_contains hch⟩
  · dsimp only [releasedHistoricalState, releasedStreamingState]
    exact alookup_filter_self _ _
  · dsimp only [releasedHistoricalState, releasedStreamingState]
    exact alookup_filter_self _ _
  · intro q hq
    have h2 := (List.mem_filter.mp hq).2
    simpa using h2

/-- Witness for C2: releasing collection 100 from the populated sample state
empties both replicas, the flow-graph service, the tSafe entries, the excluded
sets and the query shards, with the release time set under the query lock. -/
theorem C2_release_collection_witness :
    (wRel0.Base = some ⟨9, 700⟩ ∧
     alookup stRelease.streaming.collections 100 = some col100s ∧
     alookup stRelease.historical.collections 100 = some col100h) ∧
    (∃ sr, releaseCollectionExecute wRel0 stRelease =
        some (sr,
          releaseTrace ReplicaType.replicaStreaming 100 700 col100s.vChannels
            (Event.removeDmlFGs col100s.vChannels) ++
          releaseTrace ReplicaType.replicaHistorical 100 700 col100h.vDeltaChannels
            (Event.removeDeltaFGs col100h.vDeltaChannels) ++
          [Event.releaseShards 100], none) ∧
      alookup sr.streaming.collections 100 = none ∧
      alookup sr.historical.collections 100 = none ∧
      (∀ ch ∈ col100s.vChannels, ch ∉ sr.fgDml ∧ ch ∉ sr.tSafe) ∧
      (∀ ch ∈ col100h.vDeltaChannels, ch ∉ sr.fgDelta ∧ ch ∉ sr.tSafe) ∧
      alookup sr.streaming.excludedSegments 100 = none ∧
      alookup sr.historical.excludedSegments 100 = none ∧
      (∀ q ∈ sr.queryShards, q.collectionID ≠ 100)) :=
  ⟨⟨rfl, rfl, rfl⟩, C2_release_collection wRel0 stRelease col100s col100h ⟨9, 700⟩ rfl rfl rfl⟩

theorem noStart_of_forall (tr : List Event) (h : ∀ e ∈ tr, isStartFG e = false) :
    noStartEvents tr := by
  unfold noStartEvents
  rw [List.all_eq_true]
  intro e he
  simp [h e he]

theorem noStart_append (a b : List Event) (ha : noStartEvents a) (hb : noStartEvents b) :
    noStartEvents (a ++ b) := by
  unfold noStartEvents at *
  simp [List.all_append, ha, hb]

theorem noStart_map_closeFG (chs : List String) : noStartEvents (chs.map Event.closeFG) := by
  apply noStart_of_forall
  intro e he
  rcases List.mem_map.mp he with ⟨c, _, rfl⟩
  rfl

theorem noStart_map_addTSafe (chs : List String) : noStartEvents (chs.map Event.addTSafe) := by
  apply noStart_of_forall
  intro e he
  rcases List.mem_map.mp he with ⟨c, _, rfl⟩
  rfl

theorem noStart_attachChannels (env : Env) (sub : String) (vp : List (String × String))
    (cons : List (String × Option MsgPosition)) (seeks : List (String × MsgPosition)) :
    ∀ chans, noStartEvents (attachChannels env sub vp cons seeks chans).1 := by
  intro chans
  induction chans with
  | nil => rfl
  | cons ch rest ih =>
    unfold attachChannels
    split_ifs <;> simp_all [noStartEvents, isStartFG, List.all_append]

theorem noStart_deltaAttachChannels (env : Env) (cid : Int) (sub : String)
    (vp : List (String × String)) :
    ∀ chans, noStartEvents (deltaAttachChannels env cid sub vp chans).1 := by
  intro chans
  induction chans with
  | nil => rfl
  | cons ch rest ih =>
    unfold deltaAttachChannels
    split_ifs <;> simp_all [noStartEvents, isStartFG, List.all_append]

theorem noStart_dmShardStage (env : Env) (cid rid : Int) :
    ∀ (s : QueryNodeState) (chans : List String),
      noStartEvents (dmShardStage env cid rid s chans).2 := by
  intro s chans
  induction chans generalizing s with
  | nil => rfl
  | cons ch rest ih =>
    rw [dmShardStage]
    dsimp only
    split_ifs
    · exact noStart_append _ _ rfl (ih _)
    · exact noStart_append _ _ rfl (ih _)
    · exact noStart_append _ _ rfl (ih _)
    · exact noStart_append _ _ rfl (ih _)

theorem noStart_deltaShardStage (env : Env) (cid rid : Int) :
    ∀ (s : QueryNodeState) (chans : List String),
      noStartEvents (deltaShardStage env cid rid s chans).2 := by
  intro s chans
  induction chans generalizing s with
  | nil => rfl
  | cons ch rest ih =>
    rw [deltaShardStage]
    cases hconv : convertChannelName ch paramsRootCoordDelta paramsRootCoordDml with
    | none =>
      simp only [hconv]
      exact noStart_append _ _ rfl (ih _)
    | some dmlChannel =>
      simp only [hconv]
      split_ifs
      · exact noStart_append _ _ rfl (ih _)
      · exact noStart_append _ _ rfl (ih _)
      · exact noStart_append _ _ rfl (ih _)
      · exact noStart_append _ _ rfl (ih _)

theorem startLast_helper (a b c d : List Event) (ha : noStartEvents a)
    (hb : noStartEvents b) (hc : noStartEvents c) :
    ∃ pre, a ++ b ++ c ++ d = pre ++ d ∧ noStartEvents pre :=
  ⟨a ++ b ++ c, rfl, noStart_append _ _ (noStart_append _ _ ha hb) hc⟩

theorem noStart_dmAttachResult (env : Env) (w : WatchDmChannelsRequest) :
    noStartEvents (dmAttachResult env w).1 :=
  noStart_attachChannels env _ _ _ _ _

theorem noStart_deltaAttachResult (env : Env) (w : WatchDeltaChannelsRequest) :
    noStartEvents (deltaAttachResult env w).1 :=
  noStart_deltaAttachChannels env _ _ _ _

/-- C9: in every WatchDmChannels and WatchDeltaChannels execution, the
flow-graphs are started only as the final stage — the trace of a successful
execution is a start-free prefix (holding all consume/seek attachments,
collection-metadata updates, tSafe creations and query-shard attachments)
followed by exactly the start events of the request channels — and a failing
execution starts no flow-graph at all. -/
theorem C9_start_flow_graphs_last :
    (∀ (env : Env) (w : WatchDmChannelsRequest) (s sr : QueryNodeState) (tr : List Event)
        (res : Option QNError),
       watchDmChannelsExecute env w s = some (sr, tr, res) →
         (res = none → ∃ pre, tr = pre ++ (dmVChannels w).map Event.startFG ∧ noStartEvents pre) ∧
         (res.isSome = true → noStartEvents tr)) ∧
    (∀ (env : Env) (w : WatchDeltaChannelsRequest) (s sr : QueryNodeState) (tr : List Event)
        (res : Option QNError),
       watchDeltaChannelsExecute env w s = (sr, tr, res) →
         (res = none → ∃ pre, tr = pre ++ (deltaVChannels w).map Event.startFG ∧ noStartEvents pre) ∧
         (res.isSome = true → noStartEvents tr)) := by
  constructor
  · intro env w s sr tr res h
    by_cases hlen : (mkVPChannels w.Infos).length = (dmVChannels w).length
    · cases hbase : w.Base with
      | none =>
        unfold watchDmChannelsExecute at h
        rw [if_pos hlen, hbase] at h
        exact Option.noConfusion h
      | some base =>
        unfold watchDmChannelsExecute at h
        rw [if_pos hlen, hbase] at h
        cases hload : env.loadGrowingOk with
        | false =>
          simp only [loadSegmentModel, hload, Bool.false_eq_true, if_false] at h
          simp only [Option.some.injEq, Prod.mk.injEq] at h
          obtain ⟨h1, h2, h3⟩ := h
          subst h2
          subst h3
          exact ⟨fun hres => Option.noConfusion hres, fun _ => rfl⟩
        | true =>
          simp only [loadSegmentModel, hload, if_true] at h
          cases hdrop : droppedCheckPointInfos w.Infos (dmSeekPositions w) with
          | none =>
            rw [hdrop] at h
            exact Option.noConfusion h
          | some dropped =>
            rw [hdrop] at h
            cases hfg : env.addDmlFGOk with
            | false =>
              simp only [hfg, Bool.false_eq_true, if_false] at h
              simp only [Option.some.injEq, Prod.mk.injEq] at h
              obtain ⟨h1, h2, h3⟩ := h
              subst h2
              subst h3
              exact ⟨fun hres => Option.noConfusion hres, fun _ => rfl⟩
            | true =>
              simp only [hfg, if_true] at h
              cases har : (dmAttachResult env w).2 with
              | some e =>
                rw [har] at h
                simp only [Option.some.injEq, Prod.mk.injEq] at h
                obtain ⟨h1, h2, h3⟩ := h
                subst h2
                subst h3
                refine ⟨fun hres => Option.noConfusion hres, fun _ => ?_⟩
                exact noStart_append _ _
                  (noStart_append _ _ (noStart_dmAttachResult env w) (noStart_map_closeFG _)) rfl
              | none =>
                rw [har] at h
                simp only [Option.some.injEq, Prod.mk.injEq] at h
                obtain ⟨h1, h2, h3⟩ := h
                subst h2
                subst h3
                refine ⟨fun _ => ?_, fun hx => by simp at hx⟩
                exact startLast_helper _ _ _ _
                  (noStart_dmAttachResult env w)
                  (noStart_map_addTSafe _)
                  (noStart_dmShardStage env _ _ _ _)
    · unfold watchDmChannelsExecute at h
      rw [if_neg hlen] at h
      simp only [Option.some.injEq, Prod.mk.injEq] at h
      obtain ⟨h1, h2, h3⟩ := h
      subst h2
      subst h3
      exact ⟨fun hres => Option.noConfusion hres, fun _ => rfl⟩
  · intro env w s sr tr res h
    by_cases hlen : (mkVPChannels w.Infos).length = (deltaVChannels w).length
    · cases hhist : s.historical.hasCollectionB w.CollectionID with
      | false =>
        unfold watchDeltaChannelsExecute at h
        rw [if_pos hlen] at h
        simp only [hhist, Bool.false_eq_true, if_false] at h
        simp only [Prod.mk.injEq] at h
        obtain ⟨h1, h2, h3⟩ := h
        subst h2
        subst h3
        exact ⟨fun hres => Option.noConfusion hres, fun _ => rfl⟩
      | true =>
        cases hstream : s.streaming.hasCollectionB w.CollectionID with
        | false =>
          unfold watchDeltaChannelsExecute at h
          rw [if_pos hlen] at h
          simp only [hhist, hstream, if_true, Bool.false_eq_true, if_false] at h
          simp only [Prod.mk.injEq] at h
          obtain ⟨h1, h2, h3⟩ := h
          subst h2
          subst h3
          exact ⟨fun hres => Option.noConfusion hres, fun _ => rfl⟩
        | true =>
          unfold watchDeltaChannelsExecute at h
          rw [if_pos hlen] at h
          simp only [hhist, hstream, if_true] at h
          cases hfgd : env.addDeltaFGOk with
          | false =>
            simp only [hfgd, Bool.false_eq_true, if_false] at h
            simp only [Prod.mk.injEq] at h
            obtain ⟨h1, h2, h3⟩ := h
            subst h2
            subst h3
            exact ⟨fun hres => Option.noConfusion hres, fun _ => rfl⟩
          | true =>
            simp only [hfgd, if_true] at h
            cases har : (deltaAttachResult env w).2 with
            | some e =>
              rw [har] at h
              simp only [Prod.mk.injEq] at h
              obtain ⟨h1, h2, h3⟩ := h
              subst h2
              subst h3
              refine ⟨fun hres => Option.noConfusion hres, fun _ => ?_⟩
              exact noStart_append _ _
                (noStart_append _ _ (noStart_deltaAttachResult env w) (noStart_map_closeFG _)) rfl
            | none =>
              rw [har] at h
              simp only [Prod.mk.injEq] at h
              obtain ⟨h1, h2, h3⟩ := h
              subst h2
              subst h3
              refine ⟨fun _ => ?_, fun hx => by simp at hx⟩
              exact startLast_helper _ _ _ _
                (noStart_deltaAttachResult env w)
                (noStart_map_addTSafe _)
                (noStart_deltaShardStage env _ _ _ _)
    · unfold watchDeltaChannelsExecute at h
      rw [if_neg hlen] at h
      simp only [Prod.mk.injEq] at h
      obtain ⟨h1, h2, h3⟩ := h
      subst h2
      subst h3
      exact ⟨fun hres => Option.noConfusion hres, fun _ => rfl⟩

set_option maxRecDepth 8000 in
/-- Witness for C9: the sample WatchDmChannels and WatchDeltaChannels
executions succeed with traces whose start events form the final segment. -/
theorem C9_start_flow_graphs_last_witness :
    (watchDmChannelsExecute Env.allOk wDm0 QueryNodeState.empty
        = some (c9DmState, c9DmTrace, none) ∧
     watchDeltaChannelsExecute Env.allOk wDelta0 stDelta = (c9DeltaState, c9DeltaTrace, none)) ∧
    ((∃ pre, c9DmTrace = pre ++ (dmVChannels wDm0).map Event.startFG ∧ noStartEvents pre) ∧
     (∃ pre, c9DeltaTrace = pre ++ (deltaVChannels wDelta0).map Event.startFG ∧
        noStartEvents pre)) :=
  ⟨⟨by decide, by decide⟩,
   ⟨(C9_start_flow_graphs_last.1 Env.allOk wDm0 QueryNodeState.empty c9DmState c9DmTrace none
       (by decide)).1 rfl,
    (C9_start_flow_graphs_last.2 Env.allOk wDelta0 stDelta c9DeltaState c9DeltaTrace none
       (by decide)).1 rfl⟩⟩
